import Mathlib

/-!
Shallow embedding of `src/graphics.rs` and `src/main.rs` of the repository
(a minimal OpenGL tutorial program: handle wrappers around driver objects,
a context facade with `setup`/`draw_frame`, and a host event loop).

The OpenGL driver is modelled as an oracle (`Driver`): a structure of
response functions that, given the interaction history so far (the trace of
driver calls) and the call's arguments, produce the driver's reply (the
handle written by `GenVertexArrays`/`GenBuffers`/`CreateShader`/
`CreateProgram`, the integer written by `GetShaderiv`/`GetProgramiv`, the
log text written by `GetShaderInfoLog`/`GetProgramInfoLog`).  Every wrapped
driver entry point appends one `GLCall` event to the trace, recording its
arguments and (for out-parameter calls) the driver's reply, so a run of any
operation is an explicit, fully observable interaction sequence.

Machine integers: `GLuint` handles (Rust `u32`) and `GLenum` values are
modelled as `Nat`; `GLint` status words as `Int`.  The only operations the
code performs on them are the zero test (`!= 0`) and pass-through, so no
wrap-around arithmetic arises.  The four `f32` literals the program passes
to the driver (`0.1`, `1.0`, `0.5`, `-0.5`, `0.0`) are carried by their
exact IEEE-754 single-precision bit patterns (all of them exact), which is
also precisely what `bytemuck::cast_slice` exposes to `BufferData`.
-/

/-- Rust `type GLuint = u32` (graphics.rs line 5): opaque driver handles.
Only the zero test is ever applied to a handle. -/
abbrev GLuint := Nat

/-- GLenum values used by the program, with their numeric values from the
`gl33` crate (the standard OpenGL enum values). -/
def GL_ARRAY_BUFFER : Nat := 0x8892

def GL_ELEMENT_ARRAY_BUFFER : Nat := 0x8893

def GL_VERTEX_SHADER : Nat := 0x8B31

def GL_FRAGMENT_SHADER : Nat := 0x8B30

def GL_COMPILE_STATUS : Nat := 0x8B81

def GL_LINK_STATUS : Nat := 0x8B82

def GL_INFO_LOG_LENGTH : Nat := 0x8B84

def GL_STATIC_DRAW : Nat := 0x88E4

def GL_TRIANGLES : Nat := 0x0004

def GL_UNSIGNED_INT : Nat := 0x1405

def GL_FLOAT : Nat := 0x1406

def GL_COLOR_BUFFER_BIT : Nat := 0x00004000

def GL_DEPTH_BUFFER_BIT : Nat := 0x00000100

/-- IEEE-754 single-precision bit pattern of `0.1f32` (exactly
`0x3DCCCCCD` after rounding; the literal the program passes to
`ClearColor`). -/
def f32_bits_0_1 : Nat := 0x3DCCCCCD

/-- IEEE-754 single-precision bit pattern of `1.0f32`. -/
def f32_bits_1_0 : Nat := 0x3F800000

/-- IEEE-754 single-precision bit pattern of `0.5f32` (exact). -/
def f32_bits_0_5 : Nat := 0x3F000000

/-- IEEE-754 single-precision bit pattern of `-0.5f32` (exact). -/
def f32_bits_neg_0_5 : Nat := 0xBF000000

/-- IEEE-754 single-precision bit pattern of `0.0f32` (exact). -/
def f32_bits_0_0 : Nat := 0x00000000

/-- One event of the driver interaction: a call into the GL function table,
recording the arguments passed and, for calls with out-parameters, the
value the driver wrote back (`resp`). -/
inductive GLCall where
  | genVertexArrays (resp : Nat)
  | bindVertexArray (handle : Nat)
  | genBuffers (resp : Nat)
  | bindBuffer (target : Nat) (handle : Nat)
  | bufferData (target : Nat) (data : List Nat) (usage : Nat)
  | createShader (shaderType : Nat) (resp : Nat)
  | shaderSource (handle : Nat) (src : String)
  | compileShader (handle : Nat)
  | getShaderiv (handle : Nat) (pname : Nat) (resp : Int)
  | getShaderInfoLog (handle : Nat) (resp : String)
  | deleteShader (handle : Nat)
  | createProgram (resp : Nat)
  | attachShader (prog : Nat) (shader : Nat)
  | linkProgram (prog : Nat)
  | getProgramiv (prog : Nat) (pname : Nat) (resp : Int)
  | getProgramInfoLog (prog : Nat) (resp : String)
  | deleteProgram (prog : Nat)
  | useProgram (prog : Nat)
  | clearColor (r g b a : Nat)
  | clear (mask : Nat)
  | vertexAttribPointer (index size ty : Nat) (normalized : Bool) (stride offset : Nat)
  | enableVertexAttribArray (index : Nat)
  | drawElements (mode : Nat) (count : Nat) (ty : Nat) (offset : Nat)
  deriving DecidableEq, Repr

/-- The interaction history: driver calls in chronological order. -/
abbrev Trace := List GLCall

/-- A driver behaviour: for each call with an out-parameter, the value the
driver writes, as a function of the interaction history at the moment of
the call (so allocations may return fresh handles, statuses may depend on
what was compiled, and so on — this quantifies over every possible driver,
including ones that fail allocations or report compile/link failures). -/
structure Driver where
  genVertexArraysR : Trace → Nat
  genBuffersR : Trace → Nat
  createShaderR : Trace → Nat → Nat
  createProgramR : Trace → Nat
  getShaderivR : Trace → Nat → Nat → Int
  getProgramivR : Trace → Nat → Nat → Int
  shaderInfoLogR : Trace → Nat → String
  programInfoLogR : Trace → Nat → String

/-- Rust `pub struct GL { pub gl: GlFns }` (graphics.rs line 317): the
context facade owning the loaded function table; here the function table is
the driver oracle.  (The source names this struct `GL`; that identifier is
notation in Mathlib, so `GLCtx` is used.) -/
structure GLCtx where
  gl : Driver

/-- Rust `pub struct VertexArray(pub GLuint)` (graphics.rs line 30). -/
structure VertexArray where
  h : GLuint
  deriving DecidableEq, Repr

/-- Rust `pub enum BufferType { Array, ElementArray }` (graphics.rs line 54). -/
inductive BufferType where
  | Array
  | ElementArray
  deriving DecidableEq, Repr

/-- Rust `BufferType::glenum` (graphics.rs lines 59-67). -/
def BufferType.glenum : BufferType → Nat
  | BufferType.Array => GL_ARRAY_BUFFER
  | BufferType.ElementArray => GL_ELEMENT_ARRAY_BUFFER

/-- Rust `pub struct Buffer(pub GLuint, pub BufferType)` (graphics.rs line 69). -/
structure Buffer where
  h : GLuint
  ty : BufferType
  deriving DecidableEq, Repr

/-- Rust `pub enum ShaderType { Vertex, Fragment }` (graphics.rs lines 105-112). -/
inductive ShaderType where
  | Vertex
  | Fragment
  deriving DecidableEq, Repr

/-- Rust `ShaderType::glenum` (graphics.rs lines 114-122). -/
def ShaderType.glenum : ShaderType → Nat
  | ShaderType.Vertex => GL_VERTEX_SHADER
  | ShaderType.Fragment => GL_FRAGMENT_SHADER

/-- Rust `pub struct Shader(pub GLuint)` (graphics.rs line 126). -/
structure Shader where
  h : GLuint
  deriving DecidableEq, Repr

/-- Rust `pub struct ShaderProgram(pub GLuint)` (graphics.rs line 222). -/
structure ShaderProgram where
  h : GLuint
  deriving DecidableEq, Repr

/-- Rust `VertexArray::new` (graphics.rs lines 33-41): `GenVertexArrays`
writes a handle; the wrapper is returned exactly when it is non-zero. -/
def VertexArray.new (ctx : GLCtx) (t : Trace) : Option VertexArray × Trace :=
  let vao := ctx.gl.genVertexArraysR t
  let t := t ++ [GLCall.genVertexArrays vao]
  if vao ≠ 0 then (some ⟨vao⟩, t) else (none, t)

/-- Rust `VertexArray::bind` (graphics.rs lines 44-46). -/
def VertexArray.bind (va : VertexArray) (ctx : GLCtx) (t : Trace) : Trace :=
  t ++ [GLCall.bindVertexArray va.h]

/-- Rust `VertexArray::clear_binding` (graphics.rs lines 49-51). -/
def VertexArray.clear_binding (ctx : GLCtx) (t : Trace) : Trace :=
  t ++ [GLCall.bindVertexArray 0]

/-- Rust `Buffer::new` (graphics.rs lines 73-81). -/
def Buffer.new (ctx : GLCtx) (buffer_type : BufferType) (t : Trace) : Option Buffer × Trace :=
  let bo := ctx.gl.genBuffersR t
  let t := t ++ [GLCall.genBuffers bo]
  if bo ≠ 0 then (some ⟨bo, buffer_type⟩, t) else (none, t)

/-- Rust `Buffer::bind` (graphics.rs lines 83-85): binds to the glenum of
the buffer type stored at construction. -/
def Buffer.bind (b : Buffer) (ctx : GLCtx) (t : Trace) : Trace :=
  t ++ [GLCall.bindBuffer b.ty.glenum b.h]

/-- Rust `Buffer::clear_binding` (graphics.rs lines 87-89). -/
def Buffer.clear_binding (ctx : GLCtx) (buffer_type : BufferType) (t : Trace) : Trace :=
  t ++ [GLCall.bindBuffer buffer_type.glenum 0]

/-- Rust `buffer_data` (graphics.rs lines 93-102): uploads a byte slice to
the currently bound buffer of the given type (the slice length passed to
`BufferData` is implicit in the byte list). -/
def buffer_data (ctx : GLCtx) (ty : BufferType) (data : List Nat) (usage : Nat) (t : Trace) : Trace :=
  t ++ [GLCall.bufferData ty.glenum data usage]

/-- Rust `Shader::new` (graphics.rs lines 135-142). -/
def Shader.new (ctx : GLCtx) (ty : ShaderType) (t : Trace) : Option Shader × Trace :=
  let shader := ctx.gl.createShaderR t ty.glenum
  let t := t ++ [GLCall.createShader ty.glenum shader]
  if shader ≠ 0 then (some ⟨shader⟩, t) else (none, t)

/-- Rust `Shader::set_source` (graphics.rs lines 147-156). -/
def Shader.set_source (s : Shader) (ctx : GLCtx) (src : String) (t : Trace) : Trace :=
  t ++ [GLCall.shaderSource s.h src]

/-- Rust `Shader::compile` (graphics.rs lines 159-161). -/
def Shader.compile (s : Shader) (ctx : GLCtx) (t : Trace) : Trace :=
  t ++ [GLCall.compileShader s.h]

/-- Rust `Shader::compile_success` (graphics.rs lines 164-168): queries
`GL_COMPILE_STATUS` and tests the reply against zero. -/
def Shader.compile_success (s : Shader) (ctx : GLCtx) (t : Trace) : Bool × Trace :=
  let compiled := ctx.gl.getShaderivR t s.h GL_COMPILE_STATUS
  (compiled != 0, t ++ [GLCall.getShaderiv s.h GL_COMPILE_STATUS compiled])

/-- Rust `Shader::info_log` (graphics.rs lines 173-188): queries
`GL_INFO_LOG_LENGTH`, then reads the log text. -/
def Shader.info_log (s : Shader) (ctx : GLCtx) (t : Trace) : String × Trace :=
  let needed_len := ctx.gl.getShaderivR t s.h GL_INFO_LOG_LENGTH
  let t := t ++ [GLCall.getShaderiv s.h GL_INFO_LOG_LENGTH needed_len]
  let log := ctx.gl.shaderInfoLogR t s.h
  (log, t ++ [GLCall.getShaderInfoLog s.h log])

/-- Rust `Shader::delete` (graphics.rs lines 195-197): consumes the wrapper
and issues `DeleteShader`. -/
def Shader.delete (s : Shader) (ctx : GLCtx) (t : Trace) : Trace :=
  t ++ [GLCall.deleteShader s.h]

/-- Rust `Shader::from_source` (graphics.rs lines 205-217): allocate, set
source, compile, check status; on failure read the log, delete the shader,
and return the log as the error. -/
def Shader.from_source (ctx : GLCtx) (ty : ShaderType) (source : String) (t : Trace) :
    Except String Shader × Trace :=
  match Shader.new ctx ty t with
  | (none, t) => (Except.error "Couldn't allocate new shader", t)
  | (some id, t) =>
    let t := id.set_source ctx source t
    let t := id.compile ctx t
    match id.compile_success ctx t with
    | (true, t) => (Except.ok id, t)
    | (false, t) =>
      let (out, t) := id.info_log ctx t
      let t := id.delete ctx t
      (Except.error out, t)

/-- Rust `ShaderProgram::new` (graphics.rs lines 229-236). -/
def ShaderProgram.new (ctx : GLCtx) (t : Trace) : Option ShaderProgram × Trace :=
  let prog := ctx.gl.createProgramR t
  let t := t ++ [GLCall.createProgram prog]
  if prog ≠ 0 then (some ⟨prog⟩, t) else (none, t)

/-- Rust `ShaderProgram::attach_shader` (graphics.rs lines 239-241). -/
def ShaderProgram.attach_shader (p : ShaderProgram) (ctx : GLCtx) (s : Shader) (t : Trace) : Trace :=
  t ++ [GLCall.attachShader p.h s.h]

/-- Rust `ShaderProgram::link_program` (graphics.rs lines 244-246). -/
def ShaderProgram.link_program (p : ShaderProgram) (ctx : GLCtx) (t : Trace) : Trace :=
  t ++ [GLCall.linkProgram p.h]

/-- Rust `ShaderProgram::link_success` (graphics.rs lines 249-253). -/
def ShaderProgram.link_success (p : ShaderProgram) (ctx : GLCtx) (t : Trace) : Bool × Trace :=
  let success := ctx.gl.getProgramivR t p.h GL_LINK_STATUS
  (success != 0, t ++ [GLCall.getProgramiv p.h GL_LINK_STATUS success])

/-- Rust `ShaderProgram::info_log` (graphics.rs lines 258-273). -/
def ShaderProgram.info_log (p : ShaderProgram) (ctx : GLCtx) (t : Trace) : String × Trace :=
  let needed_len := ctx.gl.getProgramivR t p.h GL_INFO_LOG_LENGTH
  let t := t ++ [GLCall.getProgramiv p.h GL_INFO_LOG_LENGTH needed_len]
  let log := ctx.gl.programInfoLogR t p.h
  (log, t ++ [GLCall.getProgramInfoLog p.h log])

/-- Rust `ShaderProgram::use_program` (graphics.rs lines 276-278). -/
def ShaderProgram.use_program (p : ShaderProgram) (ctx : GLCtx) (t : Trace) : Trace :=
  t ++ [GLCall.useProgram p.h]

/-- Rust `ShaderProgram::delete` (graphics.rs lines 285-287): consumes the
wrapper and issues `DeleteProgram`. -/
def ShaderProgram.delete (p : ShaderProgram) (ctx : GLCtx) (t : Trace) : Trace :=
  t ++ [GLCall.deleteProgram p.h]

/-- Rust `ShaderProgram::from_vert_frag` (graphics.rs lines 294-313):
allocate a program, build the vertex shader (wrapping its error), build the
fragment shader (wrapping its error), attach both, link, delete both
shaders, check link status, and on link failure read the log, delete the
program, and return the wrapped message. -/
def ShaderProgram.from_vert_frag (ctx : GLCtx) (vert frag : String) (t : Trace) :
    Except String ShaderProgram × Trace :=
  match ShaderProgram.new ctx t with
  | (none, t) => (Except.error "Couldn't allocate a program", t)
  | (some p, t) =>
    match Shader.from_source ctx ShaderType.Vertex vert t with
    | (Except.error e, t) => (Except.error ("Vertex Compile Error: " ++ e), t)
    | (Except.ok v, t) =>
      match Shader.from_source ctx ShaderType.Fragment frag t with
      | (Except.error e, t) => (Except.error ("Fragment Compile Error: " ++ e), t)
      | (Except.ok f, t) =>
        let t := p.attach_shader ctx v t
        let t := p.attach_shader ctx f t
        let t := p.link_program ctx t
        let t := v.delete ctx t
        let t := f.delete ctx t
        match p.link_success ctx t with
        | (true, t) => (Except.ok p, t)
        | (false, t) =>
          let (log, t) := p.info_log ctx t
          let out := "Program Link Error: " ++ log
          let t := p.delete ctx t
          (Except.error out, t)

/-- Rust `const VERTICES: [Vertex; 4]` (graphics.rs lines 10-11), with each
`f32` represented by its exact IEEE-754 single-precision bit pattern:
`[[0.5, 0.5, 0.0], [0.5, -0.5, 0.0], [-0.5, -0.5, 0.0], [-0.5, 0.5, 0.0]]`. -/
def VERTICES : List (List Nat) :=
  [[f32_bits_0_5, f32_bits_0_5, f32_bits_0_0],
   [f32_bits_0_5, f32_bits_neg_0_5, f32_bits_0_0],
   [f32_bits_neg_0_5, f32_bits_neg_0_5, f32_bits_0_0],
   [f32_bits_neg_0_5, f32_bits_0_5, f32_bits_0_0]]

/-- Rust `const INDICES: [TriIndexes; 2] = [[0, 1, 3], [1, 2, 3]]`
(graphics.rs line 13). -/
def INDICES : List (List Nat) := [[0, 1, 3], [1, 2, 3]]

/-- Rust `const VERT_SHADER` (graphics.rs lines 15-20), the exact raw
string (braces written as escapes). -/
def VERT_SHADER : String :=
  "#version 330 core\n        layout (location = 0) in vec3 pos;\n        void main() \x7b\n            gl_Position = vec4(pos.x, pos.y, pos.z, 1.0);\n        \x7d\n        "

/-- Rust `const FRAG_SHADER` (graphics.rs lines 22-28), the exact raw
string (braces written as escapes). -/
def FRAG_SHADER : String :=
  "#version 330 core\n        out vec4 final_color;\n\n        void main() \x7b\n            final_color = vec4(1.0, 0.5, 0.2, 1.0);\n        \x7d\n"

/-- Little-endian byte serialization of one 32-bit value (the layout of a
`u32`, and of an `f32` given as its bit pattern, on the native
little-endian target). -/
def u32LeBytes (n : Nat) : List Nat :=
  [n % 256, n / 256 % 256, n / 65536 % 256, n / 16777216 % 256]

/-- `bytemuck::cast_slice` on a fixed-layout array of 3-component records
of 32-bit values: the concatenation of the little-endian bytes of every
component, in order (graphics.rs lines 354 and 358). -/
def cast_slice (rows : List (List Nat)) : List Nat :=
  rows.flatten.flatMap u32LeBytes

/-- Inverse direction of the serialization: reassemble 32-bit values from
consecutive little-endian byte quadruples (what a test double reading the
buffer back recovers). -/
def bytesToU32s : List Nat → List Nat
  | b0 :: b1 :: b2 :: b3 :: rest =>
    (b0 + 256 * b1 + 65536 * b2 + 16777216 * b3) :: bytesToU32s rest
  | _ => []

/-- Rust `core::mem::size_of::<Vertex>()` where `Vertex = [f32; 3]`:
3 components times 4 bytes of one `f32` (graphics.rs line 366). -/
def vertexSize : Nat := 3 * 4

/-- Rust `GL::clear` (graphics.rs lines 335-337): clears color and depth
buffers in one call. -/
def GLCtx.clear (ctx : GLCtx) (t : Trace) : Trace :=
  t ++ [GLCall.clear (GL_COLOR_BUFFER_BIT ||| GL_DEPTH_BUFFER_BIT)]

/-- Rust `GL::clear_color` (graphics.rs lines 339-341); the four `f32`
arguments are carried as their bit patterns. -/
def GLCtx.clear_color (ctx : GLCtx) (r g b a : Nat) (t : Trace) : Trace :=
  t ++ [GLCall.clearColor r g b a]

/-- Rust `GL::setup` (graphics.rs lines 343-374).  The Boolean result
records whether the sequence ran to completion: the source calls
`.unwrap()` on each allocation and on `from_vert_frag`, so any failure
aborts the process at that point; `false` paired with the trace accumulated
so far models that abort. -/
def GLCtx.setup (ctx : GLCtx) (t : Trace) : Bool × Trace :=
  let t := ctx.clear_color f32_bits_0_1 f32_bits_0_1 f32_bits_0_1 f32_bits_1_0 t
  match VertexArray.new ctx t with
  | (none, t) => (false, t)
  | (some vao, t) =>
    let t := vao.bind ctx t
    match Buffer.new ctx BufferType.Array t with
    | (none, t) => (false, t)
    | (some vbo, t) =>
      let t := vbo.bind ctx t
      match Buffer.new ctx BufferType.ElementArray t with
      | (none, t) => (false, t)
      | (some ebo, t) =>
        let t := ebo.bind ctx t
        let t := buffer_data ctx BufferType.ElementArray (cast_slice INDICES) GL_STATIC_DRAW t
        let t := buffer_data ctx BufferType.Array (cast_slice VERTICES) GL_STATIC_DRAW t
        let t := t ++ [GLCall.vertexAttribPointer 0 3 GL_FLOAT false vertexSize 0]
        let t := t ++ [GLCall.enableVertexAttribArray 0]
        match ShaderProgram.from_vert_frag ctx VERT_SHADER FRAG_SHADER t with
        | (Except.error _, t) => (false, t)
        | (Except.ok shader_program, t) => (true, shader_program.use_program ctx t)

/-- Rust `GL::draw_frame` (graphics.rs lines 376-381): clear, then one
`DrawElements(GL_TRIANGLES, 6, GL_UNSIGNED_INT, 0)`. -/
def GLCtx.draw_frame (ctx : GLCtx) (t : Trace) : Trace :=
  let t := ctx.clear t
  t ++ [GLCall.drawElements GL_TRIANGLES 6 GL_UNSIGNED_INT 0]

/-- The window events the event loop of `main.rs` reacts to by calling into
the graphics core: a redraw request triggers `draw_frame`; every other
event (resize, close, ...) issues no driver call. -/
inductive HostEvent where
  | redrawRequested
  | otherEvent
  deriving DecidableEq, Repr

/-- The event loop body of `main.rs` (lines 26-42) iterated over a list of
host events: `Event::RedrawRequested` calls `gl.draw_frame()` (the buffer
swap is host-owned and issues no driver call); all other events leave the
driver untouched. -/
def runEvents (ctx : GLCtx) : List HostEvent → Trace → Trace
  | [], t => t
  | HostEvent.redrawRequested :: es, t => runEvents ctx es (ctx.draw_frame t)
  | HostEvent.otherEvent :: es, t => runEvents ctx es t

/-- Rust `main` (main.rs lines 10-43), restricted to its driver
interaction: `gl.setup()` runs once on the fresh context, then the event
loop runs; if `setup` aborts (a failed `.unwrap()`), the process dies and
the loop never runs. -/
def main_run (ctx : GLCtx) (events : List HostEvent) : Trace :=
  match ctx.setup [] with
  | (true, t) => runEvents ctx events t
  | (false, t) => t

/-- Prefix test on strings, via the underlying character lists. -/
def strHasPrefix (p s : String) : Bool :=
  p.toList.isPrefixOf s.toList

/-- Provenance of a `from_vert_frag` failure, as the spec's error taxonomy
classifies it: program allocation failed, the vertex-shader stage failed,
the fragment-shader stage failed, or linking failed. -/
inductive Prov where
  | allocProgram
  | vertexCompile
  | fragmentCompile
  | programLink
  deriving DecidableEq, Repr

/-- Decoding a `from_vert_frag` result from the error text alone: the three
prefixed messages name their stage; the only remaining error text is the
program-allocation message. -/
def errProvenance : Except String ShaderProgram → Option Prov
  | Except.ok _ => none
  | Except.error e =>
    if strHasPrefix "Vertex Compile Error" e then some Prov.vertexCompile
    else if strHasPrefix "Fragment Compile Error" e then some Prov.fragmentCompile
    else if strHasPrefix "Program Link Error" e then some Prov.programLink
    else some Prov.allocProgram

/-- Provenance of the `from_vert_frag` result as the run actually unfolds
(which constituent step failed); written from the spec's description of the
composite so that agreement with `errProvenance` states that provenance is
recoverable from the error text alone. -/
def fromVertFragProvSpec (ctx : GLCtx) (vert frag : String) (t : Trace) : Option Prov :=
  let p := ctx.gl.createProgramR t
  if p = 0 then some Prov.allocProgram
  else
    let t0 := t ++ [GLCall.createProgram p]
    match Shader.from_source ctx ShaderType.Vertex vert t0 with
    | (Except.error _, _) => some Prov.vertexCompile
    | (Except.ok v, t1) =>
      match Shader.from_source ctx ShaderType.Fragment frag t1 with
      | (Except.error _, _) => some Prov.fragmentCompile
      | (Except.ok f, t2) =>
        let t3 := t2 ++ [GLCall.attachShader p v.h, GLCall.attachShader p f.h,
          GLCall.linkProgram p, GLCall.deleteShader v.h, GLCall.deleteShader f.h]
        if ctx.gl.getProgramivR t3 p GL_LINK_STATUS ≠ 0 then none
        else some Prov.programLink

/-- Recognizer for indexed draw calls in a trace. -/
def isDrawCall : GLCall → Bool
  | GLCall.drawElements _ _ _ _ => true
  | _ => false

/-- Number of indexed draw calls in a trace. -/
def drawCount (t : Trace) : Nat :=
  t.countP isDrawCall

/-- Test-double readback of a buffer target: the byte payload of the last
`BufferData` issued against that target (what reading the buffer back
yields). -/
def bufferContents (t : Trace) (target : Nat) : Option (List Nat) :=
  (t.filterMap fun c =>
    match c with
    | GLCall.bufferData tgt data _ => if tgt = target then some data else none
    | _ => none).getLast?

/-- A well-behaved concrete driver: every allocation returns the fresh
non-zero handle `history length + 1`, every status query reports success,
logs are empty. -/
def okDriver : Driver where
  genVertexArraysR := fun t => t.length + 1
  genBuffersR := fun t => t.length + 1
  createShaderR := fun t _ => t.length + 1
  createProgramR := fun t => t.length + 1
  getShaderivR := fun _ _ _ => 1
  getProgramivR := fun _ _ _ => 1
  shaderInfoLogR := fun _ _ => ""
  programInfoLogR := fun _ _ => ""

/-- A driver whose `CreateProgram` always fails (returns the zero sentinel)
while everything else succeeds. -/
def noProgramDriver : Driver where
  genVertexArraysR := fun t => t.length + 1
  genBuffersR := fun t => t.length + 1
  createShaderR := fun t _ => t.length + 1
  createProgramR := fun _ => 0
  getShaderivR := fun _ _ _ => 1
  getProgramivR := fun _ _ _ => 1
  shaderInfoLogR := fun _ _ => ""
  programInfoLogR := fun _ _ => ""

/-- A driver on which every shader compilation fails (compile status 0,
log "bad source") while allocations succeed. -/
def compileFailDriver : Driver where
  genVertexArraysR := fun t => t.length + 1
  genBuffersR := fun t => t.length + 1
  createShaderR := fun t _ => t.length + 1
  createProgramR := fun t => t.length + 1
  getShaderivR := fun _ _ pname => if pname = GL_COMPILE_STATUS then 0 else 9
  getProgramivR := fun _ _ _ => 1
  shaderInfoLogR := fun _ _ => "bad source"
  programInfoLogR := fun _ _ => ""

/-- A driver on which compilation succeeds but linking fails (link status
0, log "bad link"). -/
def linkFailDriver : Driver where
  genVertexArraysR := fun t => t.length + 1
  genBuffersR := fun t => t.length + 1
  createShaderR := fun t _ => t.length + 1
  createProgramR := fun t => t.length + 1
  getShaderivR := fun _ _ _ => 1
  getProgramivR := fun _ _ pname => if pname = GL_LINK_STATUS then 0 else 9
  shaderInfoLogR := fun _ _ => ""
  programInfoLogR := fun _ _ => "bad link"

/-- A driver on which only the fragment shader's compilation fails: with
the fresh-handle scheme above, the fragment shader of a
`from_vert_frag ... "v" "f"` run from the empty history is handle 6, and
only its compile-status query reports failure (log "bad frag"). -/
def fragFailDriver : Driver where
  genVertexArraysR := fun t => t.length + 1
  genBuffersR := fun t => t.length + 1
  createShaderR := fun t _ => t.length + 1
  createProgramR := fun t => t.length + 1
  getShaderivR := fun _ hdl pname => if pname = GL_COMPILE_STATUS ∧ hdl = 6 then 0 else 1
  getProgramivR := fun _ _ _ => 1
  shaderInfoLogR := fun _ _ => "bad frag"
  programInfoLogR := fun _ _ => ""

/-! ### Characterization lemmas for the composite operations -/

/-- The handle `Shader::new` obtains for the given kind at a given history. -/
def shaderHandleR (ctx : GLCtx) (ty : ShaderType) (t : Trace) : Nat :=
  ctx.gl.createShaderR t ty.glenum

/-- The history after the allocate/set-source/compile steps of
`Shader::from_source`, when allocation succeeded. -/
def compileTrace (ctx : GLCtx) (ty : ShaderType) (source : String) (t : Trace) : Trace :=
  t ++ [GLCall.createShader ty.glenum (shaderHandleR ctx ty t),
        GLCall.shaderSource (shaderHandleR ctx ty t) source,
        GLCall.compileShader (shaderHandleR ctx ty t)]

/-- The compile-status word the driver reports for that run. -/
def compileStatusR (ctx : GLCtx) (ty : ShaderType) (source : String) (t : Trace) : Int :=
  ctx.gl.getShaderivR (compileTrace ctx ty source t) (shaderHandleR ctx ty t) GL_COMPILE_STATUS

/-- Branch lemma: `Shader::from_source` when `CreateShader` returns the
zero sentinel. -/
theorem from_source_alloc_fail (ctx : GLCtx) (ty : ShaderType) (source : String) (t : Trace)
    (h : shaderHandleR ctx ty t = 0) :
    Shader.from_source ctx ty source t =
      (Except.error "Couldn't allocate new shader", t ++ [GLCall.createShader ty.glenum 0]) := by
  rw [shaderHandleR] at h
  simp [Shader.from_source, Shader.new, h]

/-- Branch lemma: `Shader::from_source` when allocation succeeds and the
compile-status query is non-zero: the compiled shader wrapper is returned
and the run is allocate, set source, compile, query status. -/
theorem from_source_ok (ctx : GLCtx) (ty : ShaderType) (source : String) (t : Trace)
    (h : shaderHandleR ctx ty t ≠ 0)
    (hst : compileStatusR ctx ty source t ≠ 0) :
    Shader.from_source ctx ty source t =
      (Except.ok ⟨shaderHandleR ctx ty t⟩,
       compileTrace ctx ty source t ++
         [GLCall.getShaderiv (shaderHandleR ctx ty t) GL_COMPILE_STATUS
            (compileStatusR ctx ty source t)]) := by
  have hb : (compileStatusR ctx ty source t != 0) = true := bne_iff_ne.mpr hst
  rw [compileStatusR, compileTrace, shaderHandleR] at hb ⊢
  rw [shaderHandleR] at h
  simp only [Shader.from_source, Shader.new, Shader.set_source, Shader.compile,
    Shader.compile_success, if_pos h, List.append_assoc, List.cons_append, List.nil_append] at hb ⊢
  rw [hb]

/-- The history of a compile-failing `from_source` run up to and including
the two status/log-length queries. -/
def shaderLogTrace (ctx : GLCtx) (ty : ShaderType) (source : String) (t : Trace) : Trace :=
  compileTrace ctx ty source t ++
    [GLCall.getShaderiv (shaderHandleR ctx ty t) GL_COMPILE_STATUS 0,
     GLCall.getShaderiv (shaderHandleR ctx ty t) GL_INFO_LOG_LENGTH
       (ctx.gl.getShaderivR
         (compileTrace ctx ty source t ++
           [GLCall.getShaderiv (shaderHandleR ctx ty t) GL_COMPILE_STATUS 0])
         (shaderHandleR ctx ty t) GL_INFO_LOG_LENGTH)]

/-- The log text the driver hands back on that run. -/
def shaderFailLog (ctx : GLCtx) (ty : ShaderType) (source : String) (t : Trace) : String :=
  ctx.gl.shaderInfoLogR (shaderLogTrace ctx ty source t) (shaderHandleR ctx ty t)

/-- Branch lemma: `Shader::from_source` when allocation succeeds and the
compile-status query is zero: the log is read, the shader deleted, and the
log text returned as the error. -/
theorem from_source_compile_fail (ctx : GLCtx) (ty : ShaderType) (source : String) (t : Trace)
    (h : shaderHandleR ctx ty t ≠ 0)
    (hst : compileStatusR ctx ty source t = 0) :
    Shader.from_source ctx ty source t =
      (Except.error (shaderFailLog ctx ty source t),
       shaderLogTrace ctx ty source t ++
         [GLCall.getShaderInfoLog (shaderHandleR ctx ty t) (shaderFailLog ctx ty source t),
          GLCall.deleteShader (shaderHandleR ctx ty t)]) := by
  simp only [shaderFailLog, shaderLogTrace]
  have hb : (compileStatusR ctx ty source t != 0) = false := by
    rw [hst]; rfl
  rw [compileStatusR, compileTrace, shaderHandleR] at hb hst
  rw [compileTrace, shaderHandleR]
  rw [shaderHandleR] at h
  simp only [Shader.from_source, Shader.new, Shader.set_source, Shader.compile,
    Shader.compile_success, Shader.info_log, Shader.delete, if_pos h,
    List.append_assoc, List.cons_append, List.nil_append] at hb hst ⊢
  rw [hb, hst]
  simp [List.append_assoc]

/-- The history after attach/attach/link/delete/delete inside
`ShaderProgram::from_vert_frag`, with `p`, `vh`, `fh` the program and
shader handles. -/
def linkTrace (p vh fh : Nat) (t2 : Trace) : Trace :=
  t2 ++ [GLCall.attachShader p vh, GLCall.attachShader p fh, GLCall.linkProgram p,
         GLCall.deleteShader vh, GLCall.deleteShader fh]

/-- The link-status word the driver reports at that history. -/
def linkStatusR (ctx : GLCtx) (p vh fh : Nat) (t2 : Trace) : Int :=
  ctx.gl.getProgramivR (linkTrace p vh fh t2) p GL_LINK_STATUS

/-- Branch lemma: `ShaderProgram::from_vert_frag` when `CreateProgram`
returns the zero sentinel. -/
theorem fvf_alloc_fail (ctx : GLCtx) (vert frag : String) (t : Trace)
    (h : ctx.gl.createProgramR t = 0) :
    ShaderProgram.from_vert_frag ctx vert frag t =
      (Except.error "Couldn't allocate a program", t ++ [GLCall.createProgram 0]) := by
  simp [ShaderProgram.from_vert_frag, ShaderProgram.new, h]

/-- Branch lemma: `ShaderProgram::from_vert_frag` when the program was
allocated but the vertex-shader stage failed; nothing is cleaned up beyond
what `from_source` already did. -/
theorem fvf_vert_fail (ctx : GLCtx) (vert frag : String) (t : Trace) (e : String) (t1 : Trace)
    (hp : ctx.gl.createProgramR t ≠ 0)
    (hv : Shader.from_source ctx ShaderType.Vertex vert
        (t ++ [GLCall.createProgram (ctx.gl.createProgramR t)]) = (Except.error e, t1)) :
    ShaderProgram.from_vert_frag ctx vert frag t =
      (Except.error ("Vertex Compile Error: " ++ e), t1) := by
  simp [ShaderProgram.from_vert_frag, ShaderProgram.new, hp, hv]

/-- Branch lemma: the vertex shader built but the fragment-shader stage
failed; again nothing further is cleaned up. -/
theorem fvf_frag_fail (ctx : GLCtx) (vert frag : String) (t : Trace)
    (v : Shader) (t1 : Trace) (e : String) (t2 : Trace)
    (hp : ctx.gl.createProgramR t ≠ 0)
    (hv : Shader.from_source ctx ShaderType.Vertex vert
        (t ++ [GLCall.createProgram (ctx.gl.createProgramR t)]) = (Except.ok v, t1))
    (hf : Shader.from_source ctx ShaderType.Fragment frag t1 = (Except.error e, t2)) :
    ShaderProgram.from_vert_frag ctx vert frag t =
      (Except.error ("Fragment Compile Error: " ++ e), t2) := by
  simp [ShaderProgram.from_vert_frag, ShaderProgram.new, hp, hv, hf]

/-- Branch lemma: both shaders built and the link-status query is
non-zero: the program is returned live, after attach/attach/link and the
deletion of both shader handles. -/
theorem fvf_link_ok (ctx : GLCtx) (vert frag : String) (t : Trace)
    (v : Shader) (t1 : Trace) (f : Shader) (t2 : Trace)
    (hp : ctx.gl.createProgramR t ≠ 0)
    (hv : Shader.from_source ctx ShaderType.Vertex vert
        (t ++ [GLCall.createProgram (ctx.gl.createProgramR t)]) = (Except.ok v, t1))
    (hf : Shader.from_source ctx ShaderType.Fragment frag t1 = (Except.ok f, t2))
    (hl : linkStatusR ctx (ctx.gl.createProgramR t) v.h f.h t2 ≠ 0) :
    ShaderProgram.from_vert_frag ctx vert frag t =
      (Except.ok ⟨ctx.gl.createProgramR t⟩,
       linkTrace (ctx.gl.createProgramR t) v.h f.h t2 ++
         [GLCall.getProgramiv (ctx.gl.createProgramR t) GL_LINK_STATUS
            (linkStatusR ctx (ctx.gl.createProgramR t) v.h f.h t2)]) := by
  have hb : (linkStatusR ctx (ctx.gl.createProgramR t) v.h f.h t2 != 0) = true :=
    bne_iff_ne.mpr hl
  rw [linkStatusR, linkTrace] at hb ⊢
  simp only [ShaderProgram.from_vert_frag, ShaderProgram.new, if_pos hp, hv, hf,
    ShaderProgram.attach_shader, ShaderProgram.link_program, Shader.delete,
    ShaderProgram.link_success, List.append_assoc, List.cons_append, List.nil_append] at hb ⊢
  rw [hb]

/-- The history of a link-failing `from_vert_frag` run up to and including
the two status/log-length queries. -/
def progLogTrace (ctx : GLCtx) (p vh fh : Nat) (t2 : Trace) : Trace :=
  linkTrace p vh fh t2 ++
    [GLCall.getProgramiv p GL_LINK_STATUS 0,
     GLCall.getProgramiv p GL_INFO_LOG_LENGTH
       (ctx.gl.getProgramivR (linkTrace p vh fh t2 ++ [GLCall.getProgramiv p GL_LINK_STATUS 0])
         p GL_INFO_LOG_LENGTH)]

/-- The program log text the driver hands back on that run. -/
def progFailLog (ctx : GLCtx) (p vh fh : Nat) (t2 : Trace) : String :=
  ctx.gl.programInfoLogR (progLogTrace ctx p vh fh t2) p

/-- Branch lemma: both shaders built but the link-status query is zero:
the program log is read, the program deleted, and the wrapped message
returned. -/
theorem fvf_link_fail (ctx : GLCtx) (vert frag : String) (t : Trace)
    (v : Shader) (t1 : Trace) (f : Shader) (t2 : Trace)
    (hp : ctx.gl.createProgramR t ≠ 0)
    (hv : Shader.from_source ctx ShaderType.Vertex vert
        (t ++ [GLCall.createProgram (ctx.gl.createProgramR t)]) = (Except.ok v, t1))
    (hf : Shader.from_source ctx ShaderType.Fragment frag t1 = (Except.ok f, t2))
    (hl : linkStatusR ctx (ctx.gl.createProgramR t) v.h f.h t2 = 0) :
    ShaderProgram.from_vert_frag ctx vert frag t =
      (Except.error ("Program Link Error: " ++
         progFailLog ctx (ctx.gl.createProgramR t) v.h f.h t2),
       progLogTrace ctx (ctx.gl.createProgramR t) v.h f.h t2 ++
         [GLCall.getProgramInfoLog (ctx.gl.createProgramR t)
            (progFailLog ctx (ctx.gl.createProgramR t) v.h f.h t2),
          GLCall.deleteProgram (ctx.gl.createProgramR t)]) := by
  simp only [progFailLog, progLogTrace]
  have hb : (linkStatusR ctx (ctx.gl.createProgramR t) v.h f.h t2 != 0) = false := by
    rw [hl]; rfl
  simp only [linkStatusR, linkTrace] at hb hl ⊢
  simp only [ShaderProgram.from_vert_frag, ShaderProgram.new, if_pos hp, hv, hf,
    ShaderProgram.attach_shader, ShaderProgram.link_program, Shader.delete,
    ShaderProgram.link_success, ShaderProgram.info_log, ShaderProgram.delete,
    List.append_assoc, List.cons_append, List.nil_append] at hb hl ⊢
  rw [hb, hl]
  simp [List.append_assoc]

/-! ### String-prefix facts for the three error messages -/

/-- A prefix of `c` is a prefix of `c ++ x`. -/
theorem strHasPrefix_append_true (p c x : String) (h : strHasPrefix p c = true) :
    strHasPrefix p (c ++ x) = true := by
  unfold strHasPrefix at h ⊢
  rw [List.isPrefixOf_iff_prefix] at h ⊢
  have hx : (c ++ x).toList = c.toList ++ x.toList := rfl
  rw [hx]
  exact h.trans (List.prefix_append _ _)

/-- If `p` and `c` start with different characters, `p` is no prefix of
`c ++ x`, whatever `x` is. -/
theorem strHasPrefix_append_head_ne (p c x : String) (a b : Char) (l1 l2 : List Char)
    (hp : p.toList = a :: l1) (hc : c.toList = b :: l2) (h : (a == b) = false) :
    strHasPrefix p (c ++ x) = false := by
  unfold strHasPrefix
  have hx : (c ++ x).toList = b :: (l2 ++ x.toList) := by
    show c.toList ++ x.toList = _
    rw [hc]
    rfl
  rw [hp, hx]
  show (a == b && List.isPrefixOf l1 (l2 ++ x.toList)) = false
  rw [h]
  rfl

/-- Decoding a vertex-stage error text. -/
theorem errProvenance_vertex (e : String) :
    errProvenance (Except.error ("Vertex Compile Error: " ++ e)) = some Prov.vertexCompile := by
  simp [errProvenance, strHasPrefix_append_true "Vertex Compile Error" "Vertex Compile Error: " e (by decide)]

/-- Decoding a fragment-stage error text. -/
theorem errProvenance_fragment (e : String) :
    errProvenance (Except.error ("Fragment Compile Error: " ++ e)) = some Prov.fragmentCompile := by
  simp [errProvenance,
    strHasPrefix_append_head_ne "Vertex Compile Error" "Fragment Compile Error: " e
      'V' 'F' "ertex Compile Error".toList "ragment Compile Error: ".toList
      (by decide) (by decide) (by decide),
    strHasPrefix_append_true "Fragment Compile Error" "Fragment Compile Error: " e (by decide)]

/-- Decoding a link-stage error text. -/
theorem errProvenance_link (e : String) :
    errProvenance (Except.error ("Program Link Error: " ++ e)) = some Prov.programLink := by
  simp [errProvenance,
    strHasPrefix_append_head_ne "Vertex Compile Error" "Program Link Error: " e
      'V' 'P' "ertex Compile Error".toList "rogram Link Error: ".toList
      (by decide) (by decide) (by decide),
    strHasPrefix_append_head_ne "Fragment Compile Error" "Program Link Error: " e
      'F' 'P' "ragment Compile Error".toList "rogram Link Error: ".toList
      (by decide) (by decide) (by decide),
    strHasPrefix_append_true "Program Link Error" "Program Link Error: " e (by decide)]

/-- Decoding the program-allocation error text. -/
theorem errProvenance_alloc :
    errProvenance (Except.error "Couldn't allocate a program") = some Prov.allocProgram := by
  decide

/-- C1 (amended): for every vertex source, fragment source and driver
behaviour, `from_vert_frag` returns a success exactly when the program
allocation succeeds, both shaders compile successfully (their `from_source`
stages return live shaders) and the link-status query is non-zero; and the
provenance of every outcome — vertex-stage failure, fragment-stage failure,
link failure, or the claim's unmentioned program-allocation failure (whose
message `Couldn't allocate a program` carries none of the three prefixes) —
is recoverable from the returned error text alone, by prefix matching
against `Vertex Compile Error`, `Fragment Compile Error` and
`Program Link Error`. -/
theorem c1_from_vert_frag_characterization (ctx : GLCtx) (vert frag : String) (t : Trace) :
    ((∃ q, (ShaderProgram.from_vert_frag ctx vert frag t).1 = Except.ok q) ↔
      (ctx.gl.createProgramR t ≠ 0 ∧
       ∃ v t1 f t2,
         Shader.from_source ctx ShaderType.Vertex vert
           (t ++ [GLCall.createProgram (ctx.gl.createProgramR t)]) = (Except.ok v, t1) ∧
         Shader.from_source ctx ShaderType.Fragment frag t1 = (Except.ok f, t2) ∧
         linkStatusR ctx (ctx.gl.createProgramR t) v.h f.h t2 ≠ 0)) ∧
    errProvenance (ShaderProgram.from_vert_frag ctx vert frag t).1 =
      fromVertFragProvSpec ctx vert frag t := by
  by_cases hp : ctx.gl.createProgramR t = 0
  · rw [fvf_alloc_fail ctx vert frag t hp]
    constructor
    · constructor
      · rintro ⟨q, hq⟩
        simp at hq
      · rintro ⟨hne, _⟩
        exact absurd hp hne
    · rw [errProvenance_alloc]
      simp [fromVertFragProvSpec, hp]
  · rcases hv : Shader.from_source ctx ShaderType.Vertex vert
        (t ++ [GLCall.createProgram (ctx.gl.createProgramR t)]) with ⟨rv, t1⟩
    cases rv with
    | error e =>
      rw [fvf_vert_fail ctx vert frag t e t1 hp hv]
      constructor
      · constructor
        · rintro ⟨q, hq⟩
          simp at hq
        · rintro ⟨-, v, t1x, f, t2x, hv', -⟩
          simp at hv'
      · rw [errProvenance_vertex]
        simp [fromVertFragProvSpec, hp, hv]
    | ok v =>
      rcases hf : Shader.from_source ctx ShaderType.Fragment frag t1 with ⟨rf, t2⟩
      cases rf with
      | error e =>
        rw [fvf_frag_fail ctx vert frag t v t1 e t2 hp hv hf]
        constructor
        · constructor
          · rintro ⟨q, hq⟩
            simp at hq
          · rintro ⟨-, v', t1x, f, t2x, hv', hf', -⟩
            obtain ⟨hv1, hv2⟩ := Prod.mk.injEq .. ▸ hv'
            subst hv2
            rw [hf] at hf'
            simp at hf'
        · rw [errProvenance_fragment]
          simp [fromVertFragProvSpec, hp, hv, hf]
      | ok f =>
        by_cases hl : linkStatusR ctx (ctx.gl.createProgramR t) v.h f.h t2 = 0
        · rw [fvf_link_fail ctx vert frag t v t1 f t2 hp hv hf hl]
          have hlr := hl
          simp only [linkStatusR, linkTrace] at hlr
          constructor
          · constructor
            · rintro ⟨q, hq⟩
              simp at hq
            · rintro ⟨-, v', t1x, f', t2x, hv', hf', hl'⟩
              obtain ⟨hv1, hv2⟩ := Prod.mk.injEq .. ▸ hv'
              subst hv2
              rw [hf] at hf'
              obtain ⟨hf1, hf2⟩ := Prod.mk.injEq .. ▸ hf'
              subst hf2
              cases hv1
              cases hf1
              exact absurd hl hl'
          · simp [errProvenance_link, fromVertFragProvSpec, hp, hv, hf, linkStatusR,
              linkTrace, hlr]
        · rw [fvf_link_ok ctx vert frag t v t1 f t2 hp hv hf hl]
          have hlr := hl
          simp only [linkStatusR, linkTrace] at hlr
          constructor
          · constructor
            · intro _
              exact ⟨hp, v, t1, f, t2, rfl, hf, hl⟩
            · intro _
              exact ⟨⟨ctx.gl.createProgramR t⟩, rfl⟩
          · simp [errProvenance, fromVertFragProvSpec, hp, hv, hf, linkStatusR,
              linkTrace, hlr]

/-- Decidable equality of run results, for evaluating concrete runs. -/
instance {e a : Type} [DecidableEq e] [DecidableEq a] : DecidableEq (Except e a) := fun x y =>
  match x, y with
  | Except.ok u, Except.ok v =>
    if h : u = v then Decidable.isTrue (by rw [h]) else Decidable.isFalse (by simp [h])
  | Except.error u, Except.error v =>
    if h : u = v then Decidable.isTrue (by rw [h]) else Decidable.isFalse (by simp [h])
  | Except.ok _, Except.error _ => Decidable.isFalse (by simp)
  | Except.error _, Except.ok _ => Decidable.isFalse (by simp)

/-- C1 counterexample: on a driver whose `CreateProgram` returns the zero
sentinel while every shader allocation, compile status and link status
reports success, both shader stages compile successfully (the vertex stage
and, continuing its run, the fragment stage both return live shaders) and
the driver reports every link status non-zero — yet `from_vert_frag`
returns an error, and its text `Couldn't allocate a program` is prefixed by
none of the three texts the claim says distinguish every failure. -/
theorem c1_counterexample :
    (ShaderProgram.from_vert_frag ⟨noProgramDriver⟩ VERT_SHADER FRAG_SHADER []).1 =
      Except.error "Couldn't allocate a program" ∧
    (Shader.from_source ⟨noProgramDriver⟩ ShaderType.Vertex VERT_SHADER
        [GLCall.createProgram 0]).1.isOk = true ∧
    (Shader.from_source ⟨noProgramDriver⟩ ShaderType.Fragment FRAG_SHADER
        (Shader.from_source ⟨noProgramDriver⟩ ShaderType.Vertex VERT_SHADER
          [GLCall.createProgram 0]).2).1.isOk = true ∧
    noProgramDriver.getProgramivR [] 1 GL_LINK_STATUS = 1 ∧
    strHasPrefix "Vertex Compile Error" "Couldn't allocate a program" = false ∧
    strHasPrefix "Fragment Compile Error" "Couldn't allocate a program" = false ∧
    strHasPrefix "Program Link Error" "Couldn't allocate a program" = false := by
  decide

/-- `Shader::from_source` never issues a `DeleteProgram`: if the call was
absent from the history before, it is absent after. -/
theorem from_source_no_deleteProgram (ctx : GLCtx) (ty : ShaderType) (source : String)
    (t : Trace) (n : Nat) (h : GLCall.deleteProgram n ∉ t) :
    GLCall.deleteProgram n ∉ (Shader.from_source ctx ty source t).2 := by
  by_cases hz : shaderHandleR ctx ty t = 0
  · rw [from_source_alloc_fail ctx ty source t hz]
    simp [List.mem_append, h]
  · by_cases hs : compileStatusR ctx ty source t = 0
    · rw [from_source_compile_fail ctx ty source t hz hs]
      simp [shaderLogTrace, compileTrace, List.mem_append, h]
    · rw [from_source_ok ctx ty source t hz hs]
      simp [compileTrace, List.mem_append, h]

/-- The only `DeleteShader` a `Shader::from_source` run can add to the
history is that of the handle it allocated itself. -/
theorem from_source_deleteShader_mem (ctx : GLCtx) (ty : ShaderType) (source : String)
    (t : Trace) (n : Nat)
    (hmem : GLCall.deleteShader n ∈ (Shader.from_source ctx ty source t).2) :
    GLCall.deleteShader n ∈ t ∨ n = shaderHandleR ctx ty t := by
  by_cases hz : shaderHandleR ctx ty t = 0
  · rw [from_source_alloc_fail ctx ty source t hz] at hmem
    simp [List.mem_append] at hmem
    exact Or.inl hmem
  · by_cases hs : compileStatusR ctx ty source t = 0
    · rw [from_source_compile_fail ctx ty source t hz hs] at hmem
      simp [shaderLogTrace, compileTrace, List.mem_append] at hmem
      rcases hmem with h | h
      · exact Or.inl h
      · exact Or.inr h
    · rw [from_source_ok ctx ty source t hz hs] at hmem
      simp [compileTrace, List.mem_append] at hmem
      exact Or.inl hmem

/-- Shape of every successful `Shader::from_source` run: the returned
wrapper holds the allocated handle and the run is exactly allocate, set
source, compile, query status (non-zero). -/
theorem from_source_ok_shape (ctx : GLCtx) (ty : ShaderType) (source : String) (t : Trace)
    (v : Shader) (t1 : Trace)
    (hv : Shader.from_source ctx ty source t = (Except.ok v, t1)) :
    ∃ (hs : Nat) (st : Int), hs ≠ 0 ∧ st ≠ 0 ∧ v = ⟨hs⟩ ∧
      t1 = t ++ [GLCall.createShader ty.glenum hs, GLCall.shaderSource hs source,
                 GLCall.compileShader hs, GLCall.getShaderiv hs GL_COMPILE_STATUS st] := by
  by_cases hz : shaderHandleR ctx ty t = 0
  · rw [from_source_alloc_fail ctx ty source t hz] at hv
    simp at hv
  · by_cases hs : compileStatusR ctx ty source t = 0
    · rw [from_source_compile_fail ctx ty source t hz hs] at hv
      simp at hv
    · rw [from_source_ok ctx ty source t hz hs] at hv
      obtain ⟨hv1, hv2⟩ := Prod.mk.injEq .. ▸ hv
      refine ⟨shaderHandleR ctx ty t, compileStatusR ctx ty source t, hz, hs, ?_, ?_⟩
      · cases hv1
        rfl
      · rw [← hv2]
        simp [compileTrace, List.append_assoc]

/-- C2 (amended): cleanup on failure is partial.  (a) `from_source` deletes
the half-built shader whenever the shader was allocated and compilation
failed, and returns the log as the error.  (b) Once both shaders are built,
`from_vert_frag` always deletes both shader handles, and deletes the
program whenever the run does not return a live program (the link-failure
path).  (c) But on a vertex-stage failure the already-allocated program
handle is never deleted: the error is returned with the program handle
still allocated.  (d) And on a fragment-stage failure neither the program
handle nor the compiled vertex shader handle is deleted (for the vertex
handle, provided the driver did not hand the still-live vertex handle out
again for the fragment shader, in which case the fragment cleanup would
delete it). -/
theorem c2_cleanup_incomplete :
    (∀ (ctx : GLCtx) (ty : ShaderType) (source : String) (t : Trace),
      shaderHandleR ctx ty t ≠ 0 →
      compileStatusR ctx ty source t = 0 →
      GLCall.deleteShader (shaderHandleR ctx ty t) ∈ (Shader.from_source ctx ty source t).2 ∧
      (Shader.from_source ctx ty source t).1.isOk = false) ∧
    (∀ (ctx : GLCtx) (vert frag : String) (t : Trace) (v : Shader) (t1 : Trace)
        (f : Shader) (t2 : Trace),
      ctx.gl.createProgramR t ≠ 0 →
      Shader.from_source ctx ShaderType.Vertex vert
        (t ++ [GLCall.createProgram (ctx.gl.createProgramR t)]) = (Except.ok v, t1) →
      Shader.from_source ctx ShaderType.Fragment frag t1 = (Except.ok f, t2) →
      GLCall.deleteShader v.h ∈ (ShaderProgram.from_vert_frag ctx vert frag t).2 ∧
      GLCall.deleteShader f.h ∈ (ShaderProgram.from_vert_frag ctx vert frag t).2 ∧
      ((ShaderProgram.from_vert_frag ctx vert frag t).1.isOk = false →
        GLCall.deleteProgram (ctx.gl.createProgramR t) ∈
          (ShaderProgram.from_vert_frag ctx vert frag t).2)) ∧
    (∀ (ctx : GLCtx) (vert frag : String) (t : Trace) (e : String) (t1 : Trace),
      ctx.gl.createProgramR t ≠ 0 →
      GLCall.deleteProgram (ctx.gl.createProgramR t) ∉ t →
      Shader.from_source ctx ShaderType.Vertex vert
        (t ++ [GLCall.createProgram (ctx.gl.createProgramR t)]) = (Except.error e, t1) →
      (ShaderProgram.from_vert_frag ctx vert frag t).1 =
        Except.error ("Vertex Compile Error: " ++ e) ∧
      GLCall.deleteProgram (ctx.gl.createProgramR t) ∉
        (ShaderProgram.from_vert_frag ctx vert frag t).2) ∧
    (∀ (ctx : GLCtx) (vert frag : String) (t : Trace) (v : Shader) (t1 : Trace)
        (e : String) (t2 : Trace),
      ctx.gl.createProgramR t ≠ 0 →
      Shader.from_source ctx ShaderType.Vertex vert
        (t ++ [GLCall.createProgram (ctx.gl.createProgramR t)]) = (Except.ok v, t1) →
      Shader.from_source ctx ShaderType.Fragment frag t1 = (Except.error e, t2) →
      GLCall.deleteProgram (ctx.gl.createProgramR t) ∉ t →
      GLCall.deleteShader v.h ∉ t →
      shaderHandleR ctx ShaderType.Fragment t1 ≠ v.h →
      (ShaderProgram.from_vert_frag ctx vert frag t).1 =
        Except.error ("Fragment Compile Error: " ++ e) ∧
      GLCall.deleteProgram (ctx.gl.createProgramR t) ∉
        (ShaderProgram.from_vert_frag ctx vert frag t).2 ∧
      GLCall.deleteShader v.h ∉ (ShaderProgram.from_vert_frag ctx vert frag t).2) := by
  refine ⟨?_, ?_, ?_, ?_⟩
  · intro ctx ty source t hz hs
    rw [from_source_compile_fail ctx ty source t hz hs]
    constructor
    · simp [shaderLogTrace, compileTrace, List.mem_append]
    · rfl
  · intro ctx vert frag t v t1 f t2 hp hv hf
    by_cases hl : linkStatusR ctx (ctx.gl.createProgramR t) v.h f.h t2 = 0
    · rw [fvf_link_fail ctx vert frag t v t1 f t2 hp hv hf hl]
      refine ⟨?_, ?_, ?_⟩
      · simp [progLogTrace, linkTrace, List.mem_append]
      · simp [progLogTrace, linkTrace, List.mem_append]
      · intro _
        simp [progLogTrace, linkTrace, List.mem_append]
    · rw [fvf_link_ok ctx vert frag t v t1 f t2 hp hv hf hl]
      refine ⟨?_, ?_, ?_⟩
      · simp [linkTrace, List.mem_append]
      · simp [linkTrace, List.mem_append]
      · intro hfalse
        simp [Except.isOk, Except.toBool] at hfalse
  · intro ctx vert frag t e t1 hp hnp hv
    rw [fvf_vert_fail ctx vert frag t e t1 hp hv]
    refine ⟨rfl, ?_⟩
    have hnp1 : GLCall.deleteProgram (ctx.gl.createProgramR t) ∉
        t ++ [GLCall.createProgram (ctx.gl.createProgramR t)] := by
      simp [List.mem_append, hnp]
    have := from_source_no_deleteProgram ctx ShaderType.Vertex vert
      (t ++ [GLCall.createProgram (ctx.gl.createProgramR t)])
      (ctx.gl.createProgramR t) hnp1
    rw [hv] at this
    exact this
  · intro ctx vert frag t v t1 e t2 hp hv hf hnp hnv hne
    rw [fvf_frag_fail ctx vert frag t v t1 e t2 hp hv hf]
    obtain ⟨hs0, st0, -, -, hveq, ht1⟩ := from_source_ok_shape ctx ShaderType.Vertex vert
      (t ++ [GLCall.createProgram (ctx.gl.createProgramR t)]) v t1 hv
    refine ⟨rfl, ?_, ?_⟩
    · have hnp1 : GLCall.deleteProgram (ctx.gl.createProgramR t) ∉
          t ++ [GLCall.createProgram (ctx.gl.createProgramR t)] := by
        simp [List.mem_append, hnp]
      have hnp2 := from_source_no_deleteProgram ctx ShaderType.Vertex vert
        (t ++ [GLCall.createProgram (ctx.gl.createProgramR t)])
        (ctx.gl.createProgramR t) hnp1
      rw [hv] at hnp2
      have hnp3 := from_source_no_deleteProgram ctx ShaderType.Fragment frag t1
        (ctx.gl.createProgramR t) hnp2
      rw [hf] at hnp3
      exact hnp3
    · intro hmemd
      have hmem2 : GLCall.deleteShader v.h ∈
          (Shader.from_source ctx ShaderType.Fragment frag t1).2 := by
        rw [hf]
        exact hmemd
      rcases from_source_deleteShader_mem ctx ShaderType.Fragment frag t1 v.h hmem2 with h | h
      · rw [ht1] at h
        simp [List.mem_append] at h
        exact hnv h
      · exact hne h.symm

/-- C2 counterexample: a driver that allocates the program (handle 1) and
the vertex shader but fails vertex compilation.  `from_vert_frag` returns
the vertex compile error, its run allocated program handle 1, and no
`DeleteProgram 1` appears anywhere in the run: an allocated-but-undeleted
handle is left behind on this failure path, contrary to the claim. -/
theorem c2_counterexample :
    (ShaderProgram.from_vert_frag ⟨compileFailDriver⟩ "v" "f" []).1 =
      Except.error "Vertex Compile Error: bad source" ∧
    GLCall.createProgram 1 ∈ (ShaderProgram.from_vert_frag ⟨compileFailDriver⟩ "v" "f" []).2 ∧
    GLCall.deleteProgram 1 ∉ (ShaderProgram.from_vert_frag ⟨compileFailDriver⟩ "v" "f" []).2 := by
  decide

/-- Witness for `c2_cleanup_incomplete` at concrete drivers: conjunct (a)
on a compile-failing run, conjuncts (b), (c) and (d) on a link-failing, a
vertex-failing and a fragment-failing run respectively, every hypothesis
discharged by computation. -/
theorem c2_cleanup_incomplete_witness :
    (GLCall.deleteShader 1 ∈ (Shader.from_source ⟨compileFailDriver⟩ ShaderType.Vertex "v" []).2 ∧
      (Shader.from_source ⟨compileFailDriver⟩ ShaderType.Vertex "v" []).1.isOk = false) ∧
    (GLCall.deleteShader 2 ∈ (ShaderProgram.from_vert_frag ⟨linkFailDriver⟩ "v" "f" []).2 ∧
      GLCall.deleteShader 6 ∈ (ShaderProgram.from_vert_frag ⟨linkFailDriver⟩ "v" "f" []).2 ∧
      ((ShaderProgram.from_vert_frag ⟨linkFailDriver⟩ "v" "f" []).1.isOk = false →
        GLCall.deleteProgram 1 ∈ (ShaderProgram.from_vert_frag ⟨linkFailDriver⟩ "v" "f" []).2)) ∧
    ((ShaderProgram.from_vert_frag ⟨compileFailDriver⟩ "v" "f" []).1 =
        Except.error ("Vertex Compile Error: " ++ "bad source") ∧
      GLCall.deleteProgram 1 ∉ (ShaderProgram.from_vert_frag ⟨compileFailDriver⟩ "v" "f" []).2) ∧
    ((ShaderProgram.from_vert_frag ⟨fragFailDriver⟩ "v" "f" []).1 =
        Except.error ("Fragment Compile Error: " ++ "bad frag") ∧
      GLCall.deleteProgram 1 ∉ (ShaderProgram.from_vert_frag ⟨fragFailDriver⟩ "v" "f" []).2 ∧
      GLCall.deleteShader 2 ∉ (ShaderProgram.from_vert_frag ⟨fragFailDriver⟩ "v" "f" []).2) :=
  ⟨c2_cleanup_incomplete.1 ⟨compileFailDriver⟩ ShaderType.Vertex "v" [] (by decide) (by decide),
   c2_cleanup_incomplete.2.1 ⟨linkFailDriver⟩ "v" "f" [] ⟨2⟩
     [GLCall.createProgram 1, GLCall.createShader 35633 2, GLCall.shaderSource 2 "v",
      GLCall.compileShader 2, GLCall.getShaderiv 2 35713 1] ⟨6⟩
     [GLCall.createProgram 1, GLCall.createShader 35633 2, GLCall.shaderSource 2 "v",
      GLCall.compileShader 2, GLCall.getShaderiv 2 35713 1, GLCall.createShader 35632 6,
      GLCall.shaderSource 6 "f", GLCall.compileShader 6, GLCall.getShaderiv 6 35713 1]
     (by decide) (by decide) (by decide),
   c2_cleanup_incomplete.2.2.1 ⟨compileFailDriver⟩ "v" "f" [] "bad source"
     [GLCall.createProgram 1, GLCall.createShader 35633 2, GLCall.shaderSource 2 "v",
      GLCall.compileShader 2, GLCall.getShaderiv 2 35713 0, GLCall.getShaderiv 2 35716 9,
      GLCall.getShaderInfoLog 2 "bad source", GLCall.deleteShader 2]
     (by decide) (by decide) (by decide),
   c2_cleanup_incomplete.2.2.2 ⟨fragFailDriver⟩ "v" "f" [] ⟨2⟩
     [GLCall.createProgram 1, GLCall.createShader 35633 2, GLCall.shaderSource 2 "v",
      GLCall.compileShader 2, GLCall.getShaderiv 2 35713 1] "bad frag"
     [GLCall.createProgram 1, GLCall.createShader 35633 2, GLCall.shaderSource 2 "v",
      GLCall.compileShader 2, GLCall.getShaderiv 2 35713 1, GLCall.createShader 35632 6,
      GLCall.shaderSource 6 "f", GLCall.compileShader 6, GLCall.getShaderiv 6 35713 0,
      GLCall.getShaderiv 6 35716 1, GLCall.getShaderInfoLog 6 "bad frag",
      GLCall.deleteShader 6]
     (by decide) (by decide) (by decide) (by decide) (by decide) (by decide)⟩

/-- Shape of every successful `ShaderProgram::from_vert_frag` run: the
fifteen driver calls of allocate-program, build vertex shader, build
fragment shader, attach both, link, delete both shaders, query link
status, in that order. -/
theorem fvf_ok_trace (ctx : GLCtx) (vert frag : String) (t : Trace)
    (hok : (ShaderProgram.from_vert_frag ctx vert frag t).1.isOk = true) :
    ∃ (p vs : Nat) (cvs : Int) (fs : Nat) (cfs ls : Int),
      ShaderProgram.from_vert_frag ctx vert frag t =
        (Except.ok ⟨p⟩,
         t ++ [GLCall.createProgram p,
               GLCall.createShader GL_VERTEX_SHADER vs,
               GLCall.shaderSource vs vert,
               GLCall.compileShader vs,
               GLCall.getShaderiv vs GL_COMPILE_STATUS cvs,
               GLCall.createShader GL_FRAGMENT_SHADER fs,
               GLCall.shaderSource fs frag,
               GLCall.compileShader fs,
               GLCall.getShaderiv fs GL_COMPILE_STATUS cfs,
               GLCall.attachShader p vs,
               GLCall.attachShader p fs,
               GLCall.linkProgram p,
               GLCall.deleteShader vs,
               GLCall.deleteShader fs,
               GLCall.getProgramiv p GL_LINK_STATUS ls]) := by
  by_cases hp : ctx.gl.createProgramR t = 0
  · rw [fvf_alloc_fail ctx vert frag t hp] at hok
    simp [Except.isOk, Except.toBool] at hok
  · rcases hv : Shader.from_source ctx ShaderType.Vertex vert
        (t ++ [GLCall.createProgram (ctx.gl.createProgramR t)]) with ⟨rv, t1⟩
    cases rv with
    | error e =>
      rw [fvf_vert_fail ctx vert frag t e t1 hp hv] at hok
      simp [Except.isOk, Except.toBool] at hok
    | ok v =>
      rcases hf : Shader.from_source ctx ShaderType.Fragment frag t1 with ⟨rf, t2⟩
      cases rf with
      | error e =>
        rw [fvf_frag_fail ctx vert frag t v t1 e t2 hp hv hf] at hok
        simp [Except.isOk, Except.toBool] at hok
      | ok f =>
        by_cases hl : linkStatusR ctx (ctx.gl.createProgramR t) v.h f.h t2 = 0
        · rw [fvf_link_fail ctx vert frag t v t1 f t2 hp hv hf hl] at hok
          simp [Except.isOk, Except.toBool] at hok
        · obtain ⟨vs, cvs, _, _, hveq, ht1⟩ := from_source_ok_shape ctx ShaderType.Vertex
            vert (t ++ [GLCall.createProgram (ctx.gl.createProgramR t)]) v t1 hv
          obtain ⟨fs, cfs, _, _, hfeq, ht2⟩ := from_source_ok_shape ctx ShaderType.Fragment
            frag t1 f t2 hf
          refine ⟨ctx.gl.createProgramR t, vs, cvs, fs, cfs,
            linkStatusR ctx (ctx.gl.createProgramR t) v.h f.h t2, ?_⟩
          rw [fvf_link_ok ctx vert frag t v t1 f t2 hp hv hf hl]
          subst hveq
          subst hfeq
          subst ht1
          subst ht2
          simp [linkTrace, ShaderType.glenum, List.append_assoc]

/-- Shape of a successful `VertexArray::new`: the wrapped handle is the
driver's (non-zero) reply and one `GenVertexArrays` event is recorded. -/
theorem vertexArray_new_shape (ctx : GLCtx) (t : Trace) (va : VertexArray) (tv : Trace)
    (h : VertexArray.new ctx t = (some va, tv)) :
    ∃ g, g ≠ 0 ∧ va = ⟨g⟩ ∧ tv = t ++ [GLCall.genVertexArrays g] := by
  by_cases hz : ctx.gl.genVertexArraysR t = 0
  · simp [VertexArray.new, hz] at h
  · refine ⟨ctx.gl.genVertexArraysR t, hz, ?_⟩
    simp [VertexArray.new, hz] at h
    exact ⟨h.1.symm, h.2.symm⟩

/-- Shape of a successful `Buffer::new`: the wrapped handle is the
driver's (non-zero) reply, the stored buffer type is the one requested,
and one `GenBuffers` event is recorded. -/
theorem buffer_new_shape (ctx : GLCtx) (bt : BufferType) (t : Trace) (b : Buffer) (tb : Trace)
    (h : Buffer.new ctx bt t = (some b, tb)) :
    ∃ g, g ≠ 0 ∧ b = ⟨g, bt⟩ ∧ tb = t ++ [GLCall.genBuffers g] := by
  by_cases hz : ctx.gl.genBuffersR t = 0
  · simp [Buffer.new, hz] at h
  · refine ⟨ctx.gl.genBuffersR t, hz, ?_⟩
    simp [Buffer.new, hz] at h
    exact ⟨h.1.symm, h.2.symm⟩

/-- Shape of every completed `GL::setup` run: the twenty-seven driver calls
in their source order — clear color; allocate and bind the vertex array;
allocate and bind the Array buffer; allocate and bind the ElementArray
buffer; upload the index bytes, then the vertex bytes; describe and enable
attribute slot 0; build the shader program; activate it. -/
theorem setup_ok_trace (ctx : GLCtx) (t : Trace) (hok : (GLCtx.setup ctx t).1 = true) :
    ∃ (vao vbo ebo p vs : Nat) (cvs : Int) (fs : Nat) (cfs ls : Int),
      (GLCtx.setup ctx t).2 = t ++
        [GLCall.clearColor f32_bits_0_1 f32_bits_0_1 f32_bits_0_1 f32_bits_1_0,
         GLCall.genVertexArrays vao,
         GLCall.bindVertexArray vao,
         GLCall.genBuffers vbo,
         GLCall.bindBuffer GL_ARRAY_BUFFER vbo,
         GLCall.genBuffers ebo,
         GLCall.bindBuffer GL_ELEMENT_ARRAY_BUFFER ebo,
         GLCall.bufferData GL_ELEMENT_ARRAY_BUFFER (cast_slice INDICES) GL_STATIC_DRAW,
         GLCall.bufferData GL_ARRAY_BUFFER (cast_slice VERTICES) GL_STATIC_DRAW,
         GLCall.vertexAttribPointer 0 3 GL_FLOAT false vertexSize 0,
         GLCall.enableVertexAttribArray 0,
         GLCall.createProgram p,
         GLCall.createShader GL_VERTEX_SHADER vs,
         GLCall.shaderSource vs VERT_SHADER,
         GLCall.compileShader vs,
         GLCall.getShaderiv vs GL_COMPILE_STATUS cvs,
         GLCall.createShader GL_FRAGMENT_SHADER fs,
         GLCall.shaderSource fs FRAG_SHADER,
         GLCall.compileShader fs,
         GLCall.getShaderiv fs GL_COMPILE_STATUS cfs,
         GLCall.attachShader p vs,
         GLCall.attachShader p fs,
         GLCall.linkProgram p,
         GLCall.deleteShader vs,
         GLCall.deleteShader fs,
         GLCall.getProgramiv p GL_LINK_STATUS ls,
         GLCall.useProgram p] := by
  simp only [GLCtx.setup] at hok ⊢
  rcases h1 : VertexArray.new ctx
      (GLCtx.clear_color ctx f32_bits_0_1 f32_bits_0_1 f32_bits_0_1 f32_bits_1_0 t)
    with ⟨ov, tv⟩
  rw [h1] at hok
  cases ov with
  | none => simp at hok
  | some vao =>
    simp only [] at hok ⊢
    rcases h2 : Buffer.new ctx BufferType.Array (VertexArray.bind vao ctx tv) with ⟨ob, tb⟩
    rw [h2] at hok
    cases ob with
    | none => simp at hok
    | some vbo =>
      simp only [] at hok ⊢
      rcases h3 : Buffer.new ctx BufferType.ElementArray (Buffer.bind vbo ctx tb) with ⟨oe, te⟩
      rw [h3] at hok
      cases oe with
      | none => simp at hok
      | some ebo =>
        simp only [] at hok ⊢
        rcases hfv : ShaderProgram.from_vert_frag ctx VERT_SHADER FRAG_SHADER
            ((buffer_data ctx BufferType.Array (cast_slice VERTICES) GL_STATIC_DRAW
                (buffer_data ctx BufferType.ElementArray (cast_slice INDICES) GL_STATIC_DRAW
                  (Buffer.bind ebo ctx te)) ++
              [GLCall.vertexAttribPointer 0 3 GL_FLOAT false vertexSize 0]) ++
              [GLCall.enableVertexAttribArray 0])
          with ⟨rf, tf⟩
        rw [hfv] at hok
        cases rf with
        | error e => simp at hok
        | ok sp =>
          simp only [] at hok ⊢
          obtain ⟨g1, hg1, hva, htv⟩ := vertexArray_new_shape ctx _ vao tv h1
          obtain ⟨g2, hg2, hvb, htb⟩ := buffer_new_shape ctx BufferType.Array _ vbo tb h2
          obtain ⟨g3, hg3, heb, hte⟩ := buffer_new_shape ctx BufferType.ElementArray _ ebo te h3
          have hiok : (ShaderProgram.from_vert_frag ctx VERT_SHADER FRAG_SHADER
              ((buffer_data ctx BufferType.Array (cast_slice VERTICES) GL_STATIC_DRAW
                  (buffer_data ctx BufferType.ElementArray (cast_slice INDICES) GL_STATIC_DRAW
                    (Buffer.bind ebo ctx te)) ++
                [GLCall.vertexAttribPointer 0 3 GL_FLOAT false vertexSize 0]) ++
                [GLCall.enableVertexAttribArray 0])).1.isOk = true := by
            rw [hfv]
            rfl
          obtain ⟨p, vs, cvs, fs, cfs, ls, heq⟩ := fvf_ok_trace ctx VERT_SHADER FRAG_SHADER
            _ hiok
          rw [hfv] at heq
          obtain ⟨hsp, htf⟩ := Prod.mk.injEq .. ▸ heq
          refine ⟨g1, g2, g3, p, vs, cvs, fs, cfs, ls, ?_⟩
          subst hva
          subst hvb
          subst heb
          subst htv
          subst htb
          subst hte
          cases hsp
          subst htf
          simp [GLCtx.clear_color, VertexArray.bind, Buffer.bind, buffer_data,
            BufferType.glenum, ShaderProgram.use_program, List.append_assoc]

/-- C3 (amended): a completed `setup` performs exactly this sequence in
this order — set the clear color; allocate and bind a VertexArray;
allocate and bind an Array buffer; allocate and bind an ElementArray
buffer; upload the index data, then the vertex data (both uploads follow
both buffer bindings, index bytes first); describe the vertex attribute
layout; enable attribute slot 0; build the shader program from the fixed
sources via `from_vert_frag`; and activate it with `use_program`. -/
theorem c3_setup_sequence (ctx : GLCtx) (t : Trace) (hok : (GLCtx.setup ctx t).1 = true) :
    ∃ (vao vbo ebo p vs : Nat) (cvs : Int) (fs : Nat) (cfs ls : Int),
      (GLCtx.setup ctx t).2 = t ++
        [GLCall.clearColor f32_bits_0_1 f32_bits_0_1 f32_bits_0_1 f32_bits_1_0,
         GLCall.genVertexArrays vao,
         GLCall.bindVertexArray vao,
         GLCall.genBuffers vbo,
         GLCall.bindBuffer GL_ARRAY_BUFFER vbo,
         GLCall.genBuffers ebo,
         GLCall.bindBuffer GL_ELEMENT_ARRAY_BUFFER ebo,
         GLCall.bufferData GL_ELEMENT_ARRAY_BUFFER (cast_slice INDICES) GL_STATIC_DRAW,
         GLCall.bufferData GL_ARRAY_BUFFER (cast_slice VERTICES) GL_STATIC_DRAW,
         GLCall.vertexAttribPointer 0 3 GL_FLOAT false vertexSize 0,
         GLCall.enableVertexAttribArray 0,
         GLCall.createProgram p,
         GLCall.createShader GL_VERTEX_SHADER vs,
         GLCall.shaderSource vs VERT_SHADER,
         GLCall.compileShader vs,
         GLCall.getShaderiv vs GL_COMPILE_STATUS cvs,
         GLCall.createShader GL_FRAGMENT_SHADER fs,
         GLCall.shaderSource fs FRAG_SHADER,
         GLCall.compileShader fs,
         GLCall.getShaderiv fs GL_COMPILE_STATUS cfs,
         GLCall.attachShader p vs,
         GLCall.attachShader p fs,
         GLCall.linkProgram p,
         GLCall.deleteShader vs,
         GLCall.deleteShader fs,
         GLCall.getProgramiv p GL_LINK_STATUS ls,
         GLCall.useProgram p] :=
  setup_ok_trace ctx t hok

/-- Witness for `c3_setup_sequence` on the concrete all-succeeding driver. -/
theorem c3_setup_sequence_witness :
    (GLCtx.setup ⟨okDriver⟩ []).1 = true ∧
    (∃ (vao vbo ebo p vs : Nat) (cvs : Int) (fs : Nat) (cfs ls : Int),
      (GLCtx.setup ⟨okDriver⟩ []).2 = [] ++
        [GLCall.clearColor f32_bits_0_1 f32_bits_0_1 f32_bits_0_1 f32_bits_1_0,
         GLCall.genVertexArrays vao,
         GLCall.bindVertexArray vao,
         GLCall.genBuffers vbo,
         GLCall.bindBuffer GL_ARRAY_BUFFER vbo,
         GLCall.genBuffers ebo,
         GLCall.bindBuffer GL_ELEMENT_ARRAY_BUFFER ebo,
         GLCall.bufferData GL_ELEMENT_ARRAY_BUFFER (cast_slice INDICES) GL_STATIC_DRAW,
         GLCall.bufferData GL_ARRAY_BUFFER (cast_slice VERTICES) GL_STATIC_DRAW,
         GLCall.vertexAttribPointer 0 3 GL_FLOAT false vertexSize 0,
         GLCall.enableVertexAttribArray 0,
         GLCall.createProgram p,
         GLCall.createShader GL_VERTEX_SHADER vs,
         GLCall.shaderSource vs VERT_SHADER,
         GLCall.compileShader vs,
         GLCall.getShaderiv vs GL_COMPILE_STATUS cvs,
         GLCall.createShader GL_FRAGMENT_SHADER fs,
         GLCall.shaderSource fs FRAG_SHADER,
         GLCall.compileShader fs,
         GLCall.getShaderiv fs GL_COMPILE_STATUS cfs,
         GLCall.attachShader p vs,
         GLCall.attachShader p fs,
         GLCall.linkProgram p,
         GLCall.deleteShader vs,
         GLCall.deleteShader fs,
         GLCall.getProgramiv p GL_LINK_STATUS ls,
         GLCall.useProgram p]) :=
  ⟨by decide, c3_setup_sequence ⟨okDriver⟩ [] (by decide)⟩

/-- C3 counterexample: on the all-succeeding driver, the event at position
5 of the `setup` run is the ElementArray buffer allocation, not the
vertex-data upload the claimed order places before it; the index upload
(position 7) precedes the vertex upload (position 8). -/
theorem c3_order_counterexample :
    (GLCtx.setup ⟨okDriver⟩ []).2.get? 5 = some (GLCall.genBuffers 6) ∧
    (GLCtx.setup ⟨okDriver⟩ []).2.get? 5 ≠
      some (GLCall.bufferData GL_ARRAY_BUFFER (cast_slice VERTICES) GL_STATIC_DRAW) ∧
    (GLCtx.setup ⟨okDriver⟩ []).2.get? 7 =
      some (GLCall.bufferData GL_ELEMENT_ARRAY_BUFFER (cast_slice INDICES) GL_STATIC_DRAW) ∧
    (GLCtx.setup ⟨okDriver⟩ []).2.get? 8 =
      some (GLCall.bufferData GL_ARRAY_BUFFER (cast_slice VERTICES) GL_STATIC_DRAW) := by
  decide

/-- C4: every `draw_frame` call appends exactly two driver calls — one
`Clear` of both the color and the depth buffer bits, then exactly one
indexed draw of exactly 6 indices of unsigned 32-bit type — and nothing
else; the mask `0x4100` has exactly the color bit (14) and depth bit (8)
set. -/
theorem c4_draw_frame_trace (ctx : GLCtx) (t : Trace) :
    GLCtx.draw_frame ctx t =
      t ++ [GLCall.clear (GL_COLOR_BUFFER_BIT ||| GL_DEPTH_BUFFER_BIT),
            GLCall.drawElements GL_TRIANGLES 6 GL_UNSIGNED_INT 0] ∧
    GL_COLOR_BUFFER_BIT ||| GL_DEPTH_BUFFER_BIT = 0x4100 ∧
    Nat.testBit (GL_COLOR_BUFFER_BIT ||| GL_DEPTH_BUFFER_BIT) 14 = true ∧
    Nat.testBit (GL_COLOR_BUFFER_BIT ||| GL_DEPTH_BUFFER_BIT) 8 = true := by
  refine ⟨?_, by decide, by decide, by decide⟩
  simp [GLCtx.draw_frame, GLCtx.clear, List.append_assoc]

/-- C5: the index data is the fixed 2-by-3 array `[[0,1,3],[1,2,3]]` of
unsigned 32-bit values; its byte serialization is exactly the six
little-endian (native on this target) 32-bit encodings, 24 bytes; reading
those bytes back recovers exactly the six indices (round-trip identity);
and every completed `setup` uploads exactly those bytes to the
ElementArray target, so a test-double readback of that buffer returns
them. -/
theorem c5_index_roundtrip :
    INDICES = [[0, 1, 3], [1, 2, 3]] ∧
    cast_slice INDICES =
      [0, 0, 0, 0, 1, 0, 0, 0, 3, 0, 0, 0, 1, 0, 0, 0, 2, 0, 0, 0, 3, 0, 0, 0] ∧
    (cast_slice INDICES).length = 24 ∧
    bytesToU32s (cast_slice INDICES) = INDICES.flatten ∧
    INDICES.flatten = [0, 1, 3, 1, 2, 3] ∧
    (∀ (ctx : GLCtx), (GLCtx.setup ctx []).1 = true →
      bufferContents (GLCtx.setup ctx []).2 GL_ELEMENT_ARRAY_BUFFER =
        some (cast_slice INDICES)) := by
  refine ⟨by decide, by decide, by decide, by decide, by decide, ?_⟩
  intro ctx hok
  obtain ⟨vao, vbo, ebo, p, vs, cvs, fs, cfs, ls, heq⟩ := setup_ok_trace ctx [] hok
  rw [heq]
  simp [bufferContents, GL_ELEMENT_ARRAY_BUFFER, GL_ARRAY_BUFFER, List.filterMap]

/-- Witness for the conditional clause of `c5_index_roundtrip` on the
concrete all-succeeding driver. -/
theorem c5_index_roundtrip_witness :
    bufferContents (GLCtx.setup ⟨okDriver⟩ []).2 GL_ELEMENT_ARRAY_BUFFER =
      some (cast_slice INDICES) :=
  c5_index_roundtrip.2.2.2.2.2 ⟨okDriver⟩ (by decide)

/-- C6: the attribute layout every completed `setup` configures is slot 0,
3 float components per vertex, stride `3 * 4` bytes — the size of one
vertex, i.e. 3 times the 4-byte size of one float, tightly packed — with
starting offset 0, unnormalized; slot 0 is then enabled; and the geometry
this layout reads consists of 4 vertices of 3 components each. -/
theorem c6_attrib_layout :
    vertexSize = 3 * 4 ∧
    VERTICES.length = 4 ∧
    (∀ v ∈ VERTICES, v.length = 3) ∧
    (∀ (ctx : GLCtx) (t : Trace), (GLCtx.setup ctx t).1 = true →
      GLCall.vertexAttribPointer 0 3 GL_FLOAT false (3 * 4) 0 ∈ (GLCtx.setup ctx t).2 ∧
      GLCall.enableVertexAttribArray 0 ∈ (GLCtx.setup ctx t).2) := by
  refine ⟨by decide, by decide, by decide, ?_⟩
  intro ctx t hok
  obtain ⟨vao, vbo, ebo, p, vs, cvs, fs, cfs, ls, heq⟩ := setup_ok_trace ctx t hok
  rw [heq]
  constructor
  · simp [List.mem_append, vertexSize]
  · simp [List.mem_append]

/-- Witness for the conditional clause of `c6_attrib_layout` on the
concrete all-succeeding driver. -/
theorem c6_attrib_layout_witness :
    GLCall.vertexAttribPointer 0 3 GL_FLOAT false (3 * 4) 0 ∈ (GLCtx.setup ⟨okDriver⟩ []).2 ∧
    GLCall.enableVertexAttribArray 0 ∈ (GLCtx.setup ⟨okDriver⟩ []).2 :=
  c6_attrib_layout.2.2.2 ⟨okDriver⟩ [] (by decide)

/-- C7: for each of the four handle kinds, the constructor returns `none`
exactly when the driver replies with the zero sentinel, and otherwise a
wrapper holding that non-zero handle (and, for `Buffer`, the requested
buffer type). -/
theorem c7_allocate_zero_sentinel (ctx : GLCtx) (t : Trace) (bt : BufferType)
    (ty : ShaderType) :
    (VertexArray.new ctx t).1 =
      (if ctx.gl.genVertexArraysR t ≠ 0 then some ⟨ctx.gl.genVertexArraysR t⟩ else none) ∧
    (Buffer.new ctx bt t).1 =
      (if ctx.gl.genBuffersR t ≠ 0 then some ⟨ctx.gl.genBuffersR t, bt⟩ else none) ∧
    (Shader.new ctx ty t).1 =
      (if ctx.gl.createShaderR t ty.glenum ≠ 0 then
        some ⟨ctx.gl.createShaderR t ty.glenum⟩ else none) ∧
    (ShaderProgram.new ctx t).1 =
      (if ctx.gl.createProgramR t ≠ 0 then some ⟨ctx.gl.createProgramR t⟩ else none) := by
  refine ⟨?_, ?_, ?_, ?_⟩
  · by_cases h : ctx.gl.genVertexArraysR t = 0 <;> simp [VertexArray.new, h]
  · by_cases h : ctx.gl.genBuffersR t = 0 <;> simp [Buffer.new, h]
  · by_cases h : ctx.gl.createShaderR t ty.glenum = 0 <;> simp [Shader.new, h]
  · by_cases h : ctx.gl.createProgramR t = 0 <;> simp [ShaderProgram.new, h]

/-- Number of redraw requests among the host events. -/
def redrawCount (es : List HostEvent) : Nat :=
  es.countP fun e => match e with
    | HostEvent.redrawRequested => true
    | _ => false

/-- `VertexArray::new` issues no draw call. -/
theorem vertexArray_new_drawCount (ctx : GLCtx) (t : Trace) :
    drawCount (VertexArray.new ctx t).2 = drawCount t := by
  by_cases h : ctx.gl.genVertexArraysR t = 0 <;>
    simp [VertexArray.new, h, drawCount, isDrawCall]

/-- `Buffer::new` issues no draw call. -/
theorem buffer_new_drawCount (ctx : GLCtx) (bt : BufferType) (t : Trace) :
    drawCount (Buffer.new ctx bt t).2 = drawCount t := by
  by_cases h : ctx.gl.genBuffersR t = 0 <;>
    simp [Buffer.new, h, drawCount, isDrawCall]

/-- `Shader::from_source` issues no draw call. -/
theorem from_source_drawCount (ctx : GLCtx) (ty : ShaderType) (source : String) (t : Trace) :
    drawCount (Shader.from_source ctx ty source t).2 = drawCount t := by
  by_cases hz : shaderHandleR ctx ty t = 0
  · rw [from_source_alloc_fail ctx ty source t hz]
    simp [drawCount, isDrawCall]
  · by_cases hs : compileStatusR ctx ty source t = 0
    · rw [from_source_compile_fail ctx ty source t hz hs]
      simp [drawCount, isDrawCall, shaderLogTrace, compileTrace]
    · rw [from_source_ok ctx ty source t hz hs]
      simp [drawCount, isDrawCall, compileTrace]

/-- `ShaderProgram::from_vert_frag` issues no draw call. -/
theorem fvf_drawCount (ctx : GLCtx) (vert frag : String) (t : Trace) :
    drawCount (ShaderProgram.from_vert_frag ctx vert frag t).2 = drawCount t := by
  by_cases hp : ctx.gl.createProgramR t = 0
  · rw [fvf_alloc_fail ctx vert frag t hp]
    simp [drawCount, isDrawCall]
  · rcases hv : Shader.from_source ctx ShaderType.Vertex vert
        (t ++ [GLCall.createProgram (ctx.gl.createProgramR t)]) with ⟨rv, t1⟩
    have hv1 : drawCount t1 = drawCount t := by
      have h := from_source_drawCount ctx ShaderType.Vertex vert
        (t ++ [GLCall.createProgram (ctx.gl.createProgramR t)])
      rw [hv] at h
      simpa [drawCount, isDrawCall] using h
    cases rv with
    | error e =>
      rw [fvf_vert_fail ctx vert frag t e t1 hp hv]
      exact hv1
    | ok v =>
      rcases hf : Shader.from_source ctx ShaderType.Fragment frag t1 with ⟨rf, t2⟩
      have hf1 : drawCount t2 = drawCount t1 := by
        have h := from_source_drawCount ctx ShaderType.Fragment frag t1
        rw [hf] at h
        exact h
      cases rf with
      | error e =>
        rw [fvf_frag_fail ctx vert frag t v t1 e t2 hp hv hf]
        rw [hf1, hv1]
      | ok f =>
        by_cases hl : linkStatusR ctx (ctx.gl.createProgramR t) v.h f.h t2 = 0
        · rw [fvf_link_fail ctx vert frag t v t1 f t2 hp hv hf hl]
          simp [drawCount, isDrawCall, progLogTrace, linkTrace]
          exact hf1.trans hv1
        · rw [fvf_link_ok ctx vert frag t v t1 f t2 hp hv hf hl]
          simp [drawCount, isDrawCall, linkTrace]
          exact hf1.trans hv1

/-- `GL::setup` issues no draw call on any path, completed or aborted. -/
theorem setup_drawCount (ctx : GLCtx) (t : Trace) :
    drawCount (GLCtx.setup ctx t).2 = drawCount t := by
  simp only [GLCtx.setup]
  rcases h1 : VertexArray.new ctx
      (GLCtx.clear_color ctx f32_bits_0_1 f32_bits_0_1 f32_bits_0_1 f32_bits_1_0 t)
    with ⟨ov, tv⟩
  have hc1 : drawCount tv = drawCount t := by
    have h := vertexArray_new_drawCount ctx
      (GLCtx.clear_color ctx f32_bits_0_1 f32_bits_0_1 f32_bits_0_1 f32_bits_1_0 t)
    rw [h1] at h
    simpa [GLCtx.clear_color, drawCount, isDrawCall] using h
  cases ov with
  | none => simpa using hc1
  | some vao =>
    simp only []
    rcases h2 : Buffer.new ctx BufferType.Array (VertexArray.bind vao ctx tv) with ⟨ob, tb⟩
    have hc2 : drawCount tb = drawCount t := by
      have h := buffer_new_drawCount ctx BufferType.Array (VertexArray.bind vao ctx tv)
      rw [h2] at h
      simp only [VertexArray.bind] at h
      simp [drawCount, isDrawCall] at h
      exact h.trans hc1
    cases ob with
    | none => simpa using hc2
    | some vbo =>
      simp only []
      rcases h3 : Buffer.new ctx BufferType.ElementArray (Buffer.bind vbo ctx tb) with ⟨oe, te⟩
      have hc3 : drawCount te = drawCount t := by
        have h := buffer_new_drawCount ctx BufferType.ElementArray (Buffer.bind vbo ctx tb)
        rw [h3] at h
        simp only [Buffer.bind] at h
        simp [drawCount, isDrawCall] at h
        exact h.trans hc2
      cases oe with
      | none => simpa using hc3
      | some ebo =>
        simp only []
        rcases hfv : ShaderProgram.from_vert_frag ctx VERT_SHADER FRAG_SHADER
            ((buffer_data ctx BufferType.Array (cast_slice VERTICES) GL_STATIC_DRAW
                (buffer_data ctx BufferType.ElementArray (cast_slice INDICES) GL_STATIC_DRAW
                  (Buffer.bind ebo ctx te)) ++
              [GLCall.vertexAttribPointer 0 3 GL_FLOAT false vertexSize 0]) ++
              [GLCall.enableVertexAttribArray 0])
          with ⟨rf, tf⟩
        have hc4 : drawCount tf = drawCount t := by
          have h := fvf_drawCount ctx VERT_SHADER FRAG_SHADER
            ((buffer_data ctx BufferType.Array (cast_slice VERTICES) GL_STATIC_DRAW
                (buffer_data ctx BufferType.ElementArray (cast_slice INDICES) GL_STATIC_DRAW
                  (Buffer.bind ebo ctx te)) ++
              [GLCall.vertexAttribPointer 0 3 GL_FLOAT false vertexSize 0]) ++
              [GLCall.enableVertexAttribArray 0])
          rw [hfv] at h
          simp only [buffer_data, Buffer.bind] at h
          simp [drawCount, isDrawCall] at h
          exact h.trans hc3
        cases rf with
        | error e => simpa using hc4
        | ok sp =>
          simp only [ShaderProgram.use_program]
          simp [drawCount, isDrawCall]
          exact hc4

/-- The event loop issues exactly one indexed draw per redraw request. -/
theorem runEvents_drawCount (ctx : GLCtx) (es : List HostEvent) (t : Trace) :
    drawCount (runEvents ctx es t) = drawCount t + redrawCount es := by
  induction es generalizing t with
  | nil => simp [runEvents, redrawCount]
  | cons e es ih =>
    cases e with
    | redrawRequested =>
      rw [runEvents, ih]
      simp [GLCtx.draw_frame, GLCtx.clear, drawCount, isDrawCall, redrawCount,
        List.countP_cons]
      omega
    | otherEvent =>
      rw [runEvents, ih]
      simp [redrawCount, List.countP_cons]

/-- Every indexed draw the event loop adds is the fixed
`DrawElements(GL_TRIANGLES, 6, GL_UNSIGNED_INT, 0)` call. -/
theorem runEvents_draw_shape (ctx : GLCtx) (es : List HostEvent) (t : Trace) (c : GLCall)
    (hc : c ∈ runEvents ctx es t) (hd : isDrawCall c = true) :
    c ∈ t ∨ c = GLCall.drawElements GL_TRIANGLES 6 GL_UNSIGNED_INT 0 := by
  induction es generalizing t with
  | nil => exact Or.inl hc
  | cons e es ih =>
    cases e with
    | otherEvent => exact ih t hc
    | redrawRequested =>
      rcases ih (GLCtx.draw_frame ctx t) hc with h | h
      · simp [GLCtx.draw_frame, GLCtx.clear, List.mem_append] at h
        rcases h with h | h | h
        · exact Or.inl h
        · rw [h] at hd
          simp [isDrawCall] at hd
        · exact Or.inr h
      · exact Or.inr h

/-- C8: no indexed draw call ever occurs unless `setup` has previously
completed: the whole-program run with an aborted `setup` contains zero
draw calls, `setup` itself never draws, a completed `setup` followed by
the event loop issues exactly one indexed draw per redraw request, and
every indexed draw issued anywhere in the program run is the single
`DrawElements` of exactly 6 indices of unsigned 32-bit type. -/
theorem c8_draw_after_setup :
    (∀ (ctx : GLCtx) (events : List HostEvent),
      (GLCtx.setup ctx []).1 = false → drawCount (main_run ctx events) = 0) ∧
    (∀ (ctx : GLCtx) (t : Trace), drawCount (GLCtx.setup ctx t).2 = drawCount t) ∧
    (∀ (ctx : GLCtx) (events : List HostEvent),
      (GLCtx.setup ctx []).1 = true →
        drawCount (main_run ctx events) = redrawCount events) ∧
    (∀ (ctx : GLCtx) (events : List HostEvent) (c : GLCall),
      c ∈ main_run ctx events → isDrawCall c = true →
        c = GLCall.drawElements GL_TRIANGLES 6 GL_UNSIGNED_INT 0) := by
  have hsetup0 : ∀ (ctx : GLCtx), drawCount (GLCtx.setup ctx []).2 = 0 := by
    intro ctx
    have h := setup_drawCount ctx []
    simpa [drawCount] using h
  refine ⟨?_, setup_drawCount, ?_, ?_⟩
  · intro ctx events hfail
    rcases hs : GLCtx.setup ctx [] with ⟨ok, ts⟩
    rw [hs] at hfail
    have hts : drawCount ts = 0 := by
      have h := hsetup0 ctx
      rw [hs] at h
      exact h
    cases ok with
    | true => simp at hfail
    | false =>
      unfold main_run
      rw [hs]
      exact hts
  · intro ctx events hok
    rcases hs : GLCtx.setup ctx [] with ⟨ok, ts⟩
    rw [hs] at hok
    have hts : drawCount ts = 0 := by
      have h := hsetup0 ctx
      rw [hs] at h
      exact h
    cases ok with
    | false => simp at hok
    | true =>
      unfold main_run
      rw [hs]
      rw [runEvents_drawCount, hts]
      omega
  · intro ctx events c hc hd
    unfold main_run at hc
    rcases hs : GLCtx.setup ctx [] with ⟨ok, ts⟩
    rw [hs] at hc
    have hts : drawCount ts = 0 := by
      have h := hsetup0 ctx
      rw [hs] at h
      exact h
    have hno : ∀ a ∈ ts, ¬ isDrawCall a = true := by
      have h := List.countP_eq_zero.mp hts
      simpa using h
    cases ok with
    | false => exact absurd hd (hno c hc)
    | true =>
      rcases runEvents_draw_shape ctx events ts c hc hd with h | h
      · exact absurd hd (hno c h)
      · exact h

/-- Witness for `c8_draw_after_setup` at concrete drivers: an aborted
setup (program allocation fails) leads to zero draw calls even with a
redraw request pending; a completed setup followed by two redraw requests
among other events yields exactly two draw calls; and a draw event found
in a concrete run is the canonical 6-index unsigned-32-bit one. -/
theorem c8_draw_after_setup_witness :
    drawCount (main_run ⟨noProgramDriver⟩ [HostEvent.redrawRequested]) = 0 ∧
    drawCount (main_run ⟨okDriver⟩
        [HostEvent.redrawRequested, HostEvent.otherEvent, HostEvent.redrawRequested]) =
      redrawCount
        [HostEvent.redrawRequested, HostEvent.otherEvent, HostEvent.redrawRequested] ∧
    GLCall.drawElements GL_TRIANGLES 6 GL_UNSIGNED_INT 0 =
      GLCall.drawElements GL_TRIANGLES 6 GL_UNSIGNED_INT 0 :=
  ⟨c8_draw_after_setup.1 ⟨noProgramDriver⟩ [HostEvent.redrawRequested] (by decide),
   c8_draw_after_setup.2.2.1 ⟨okDriver⟩
     [HostEvent.redrawRequested, HostEvent.otherEvent, HostEvent.redrawRequested] (by decide),
   c8_draw_after_setup.2.2.2 ⟨okDriver⟩ [HostEvent.redrawRequested]
     (GLCall.drawElements GL_TRIANGLES 6 GL_UNSIGNED_INT 0) (by decide) (by decide)⟩

/-- C10: wrappers are immutable values — every operation on a wrapper
addresses exactly the handle stored at construction (the events it appends
mention `.h` of the wrapper and nothing else), a `Buffer` always binds to
the glenum of the buffer type fixed at its construction, and a successful
constructor stores exactly the driver's non-zero reply (and, for `Buffer`,
the requested type). -/
theorem c10_handle_immutable (ctx : GLCtx) (t : Trace) (va : VertexArray) (b : Buffer)
    (s : Shader) (p : ShaderProgram) (src : String) (bt : BufferType) :
    (va.bind ctx t = t ++ [GLCall.bindVertexArray va.h]) ∧
    (b.bind ctx t = t ++ [GLCall.bindBuffer b.ty.glenum b.h]) ∧
    (s.set_source ctx src t = t ++ [GLCall.shaderSource s.h src]) ∧
    (s.compile ctx t = t ++ [GLCall.compileShader s.h]) ∧
    ((s.compile_success ctx t).2 =
      t ++ [GLCall.getShaderiv s.h GL_COMPILE_STATUS
              (ctx.gl.getShaderivR t s.h GL_COMPILE_STATUS)]) ∧
    ((s.info_log ctx t).2 =
      t ++ [GLCall.getShaderiv s.h GL_INFO_LOG_LENGTH
              (ctx.gl.getShaderivR t s.h GL_INFO_LOG_LENGTH),
            GLCall.getShaderInfoLog s.h
              (ctx.gl.shaderInfoLogR
                (t ++ [GLCall.getShaderiv s.h GL_INFO_LOG_LENGTH
                        (ctx.gl.getShaderivR t s.h GL_INFO_LOG_LENGTH)]) s.h)]) ∧
    (s.delete ctx t = t ++ [GLCall.deleteShader s.h]) ∧
    (p.attach_shader ctx s t = t ++ [GLCall.attachShader p.h s.h]) ∧
    (p.link_program ctx t = t ++ [GLCall.linkProgram p.h]) ∧
    ((p.link_success ctx t).2 =
      t ++ [GLCall.getProgramiv p.h GL_LINK_STATUS
              (ctx.gl.getProgramivR t p.h GL_LINK_STATUS)]) ∧
    (p.use_program ctx t = t ++ [GLCall.useProgram p.h]) ∧
    (p.delete ctx t = t ++ [GLCall.deleteProgram p.h]) ∧
    ((VertexArray.new ctx t).1.map VertexArray.h =
      (if ctx.gl.genVertexArraysR t ≠ 0 then some (ctx.gl.genVertexArraysR t) else none)) ∧
    ((Buffer.new ctx bt t).1.map Buffer.h =
      (if ctx.gl.genBuffersR t ≠ 0 then some (ctx.gl.genBuffersR t) else none)) ∧
    ((Buffer.new ctx bt t).1.map Buffer.ty =
      (if ctx.gl.genBuffersR t ≠ 0 then some bt else none)) := by
  refine ⟨rfl, rfl, rfl, rfl, ?_, ?_, rfl, rfl, rfl, ?_, rfl, rfl, ?_, ?_, ?_⟩
  · simp [Shader.compile_success]
  · simp [Shader.info_log, List.append_assoc]
  · simp [ShaderProgram.link_success]
  · by_cases h : ctx.gl.genVertexArraysR t = 0 <;> simp [VertexArray.new, h]
  · by_cases h : ctx.gl.genBuffersR t = 0 <;> simp [Buffer.new, h]
  · by_cases h : ctx.gl.genBuffersR t = 0 <;> simp [Buffer.new, h]
